import Mathlib

/-!
Verification of the Aula-Inteligente academic-records backend.

This file gives a shallow embedding, in Lean 4, of the algorithmic core of the
repository — the geofenced attendance-session engine
(`app/crud/sesion_asistencia.py`), the weighted grade aggregator
(`app/routers/rendimiento_final.py`, `app/routers/evaluaciones.py`) and the
low-grade notification trigger (`app/services/notification_service.py`) — and
proves or refutes the specification's claims about them.

Conventions of the embedding:
* SQLAlchemy tables become Lean lists of structures; a query `.first()` becomes
  `List.find?`, `.all()` becomes `List.filter`, an ORM in-place update of the
  row found by `.first()` becomes replacement of the first matching list
  element, and `db.add` appends at the end.
* Python numeric values (grades, percentages, coordinates, distances) are
  rationals `ℚ`; timestamps are rationals measured in minutes; calendar dates
  are integers (day numbers), with `func.date` of a timestamp modelled as
  flooring by 1440 minutes.
* Python's `round(x, 2)` (round-half-to-even on the scaled value) is `round2`.
* A Python function that raises `ValueError` becomes a Lean function into
  `Except`; the distinct `ValueError` messages of one operation become the
  constructors of its error type.  An exception raised before `db.commit()`
  leaves the store unchanged, so an erring call returns the input state.
* The haversine distance itself is floating-point trigonometry; every claim
  treated here depends only on the computed distance value, so the functions
  that consume it are parametrised by the distance function `dist`.
-/

namespace AulaInteligente

attribute [local semireducible] Rat.add Rat.mul Rat.sub Rat.inv Rat.ofScientific

/-- Round-half-to-even of a rational to an integer (Python's `round(x)`). -/
def roundHalfEven (x : ℚ) : ℤ :=
  let f := x.floor
  let r := x - f
  if r < 1/2 then f
  else if 1/2 < r then f + 1
  else if f % 2 = 0 then f else f + 1

/-- Python's `round(x, 2)`: round-half-to-even at two decimal places. -/
def round2 (x : ℚ) : ℚ := (roundHalfEven (100 * x) : ℚ) / 100

/-! ## Data model: evaluation ledger, categories, weights, final performance -/

/-- `TipoEvaluacion` — an evaluation category (exam, participation, attendance …). -/
structure TipoEvaluacion where
  id : ℕ
  nombre : String
  deriving Repr, DecidableEq

/-- `PesoTipoEvaluacion` — the weight a teacher assigned to a category for a
subject and academic cycle (gestión). -/
structure PesoTipoEvaluacion where
  docente_id : ℕ
  materia_id : ℕ
  gestion_id : ℕ
  tipo_evaluacion_id : ℕ
  porcentaje : ℚ
  deriving Repr, DecidableEq

/-- `Evaluacion` — one grade-ledger row. -/
structure Evaluacion where
  estudiante_id : ℕ
  materia_id : ℕ
  periodo_id : ℕ
  tipo_evaluacion_id : ℕ
  /-- calendar date of the entry, as a day number (`DATE` column) -/
  fecha : ℤ
  valor : ℚ
  descripcion : String
  deriving Repr, DecidableEq

/-- `RendimientoFinal` — the stored final performance, keyed by
(student, subject, period). -/
structure RendimientoFinal where
  estudiante_id : ℕ
  materia_id : ℕ
  periodo_id : ℕ
  nota_final : ℚ
  deriving Repr, DecidableEq

/-- State touched by the grade aggregator. -/
structure AggState where
  tipos : List TipoEvaluacion
  pesos : List PesoTipoEvaluacion
  evaluaciones : List Evaluacion
  rendimientos : List RendimientoFinal
  deriving Repr

/-- The weight lookup of `calcular_rendimiento_final`:
`db.query(PesoTipoEvaluacion).filter_by(docente_id, materia_id, gestion_id,
tipo_evaluacion_id).first()`. -/
def buscarPeso (pesos : List PesoTipoEvaluacion)
    (docente_id materia_id gestion_id tipo_id : ℕ) : Option PesoTipoEvaluacion :=
  pesos.find? fun p =>
    p.docente_id == docente_id && p.materia_id == materia_id &&
    p.gestion_id == gestion_id && p.tipo_evaluacion_id == tipo_id

/-- The ledger query of `calcular_rendimiento_final`:
`db.query(Evaluacion).filter_by(estudiante_id, materia_id, periodo_id,
tipo_evaluacion_id).all()`. -/
def evaluacionesDe (evs : List Evaluacion)
    (estudiante_id materia_id periodo_id tipo_id : ℕ) : List Evaluacion :=
  evs.filter fun e =>
    e.estudiante_id == estudiante_id && e.materia_id == materia_id &&
    e.periodo_id == periodo_id && e.tipo_evaluacion_id == tipo_id

/-- `promedio = sum(e.valor for e in evaluaciones) / len(evaluaciones)`. -/
def promedio (evs : List Evaluacion) : ℚ :=
  (evs.map (·.valor)).sum / evs.length

/-- The accumulation loop of `calcular_rendimiento_final` over the category
list: skip a category with no weight row or no ledger entries, otherwise add
`promedio * peso.porcentaje / 100`.  Note the loop body is the same for every
category — there is no special case for the category named "Asistencia". -/
def notaFinalLoop (pesos : List PesoTipoEvaluacion) (evs : List Evaluacion)
    (estudiante_id materia_id periodo_id gestion_id docente_id : ℕ)
    (tipos : List TipoEvaluacion) (acc : ℚ) : ℚ :=
  tipos.foldl (fun nota tipo =>
    match buscarPeso pesos docente_id materia_id gestion_id tipo.id with
    | none => nota
    | some peso =>
      let evaluaciones := evaluacionesDe evs estudiante_id materia_id periodo_id tipo.id
      if evaluaciones.isEmpty then nota
      else nota + promedio evaluaciones * peso.porcentaje / 100) acc

/-- `nota_final` as computed by `calcular_rendimiento_final` (before storing):
the loop started from `0.0`, rounded to 2 decimals. -/
def notaFinal (st : AggState)
    (estudiante_id materia_id periodo_id gestion_id docente_id : ℕ) : ℚ :=
  round2 (notaFinalLoop st.pesos st.evaluaciones
    estudiante_id materia_id periodo_id gestion_id docente_id st.tipos 0)

/-- Replace the first element satisfying `p` by `f` of it (ORM in-place update
of the row returned by `.first()`). -/
def actualizarPrimera {α : Type} (p : α → Bool) (f : α → α) : List α → List α
  | [] => []
  | e :: es => if p e then f e :: es else e :: actualizarPrimera p f es

/-- The upsert at the end of `calcular_rendimiento_final`: update the existing
`RendimientoFinal` row for (student, subject, period) or insert a new one. -/
def upsertRendimiento (rs : List RendimientoFinal)
    (estudiante_id materia_id periodo_id : ℕ) (nota : ℚ) : List RendimientoFinal :=
  let clave := fun (r : RendimientoFinal) =>
    r.estudiante_id == estudiante_id && r.materia_id == materia_id &&
    r.periodo_id == periodo_id
  match rs.find? clave with
  | some _ => actualizarPrimera clave (fun r => { r with nota_final := nota }) rs
  | none => rs ++ [⟨estudiante_id, materia_id, periodo_id, nota⟩]

/-- `calcular_rendimiento_final` (`POST /rendimientos/calcular`): compute the
weighted final score and upsert it into `RendimientoFinal`.  Returns the new
state and the stored score. -/
def calcular_rendimiento_final (st : AggState)
    (estudiante_id materia_id periodo_id gestion_id docente_id : ℕ) :
    AggState × ℚ :=
  let nota := notaFinal st estudiante_id materia_id periodo_id gestion_id docente_id
  ({ st with rendimientos :=
      upsertRendimiento st.rendimientos estudiante_id materia_id periodo_id nota },
   nota)

/-- The Attendance branch of the read-only summary endpoints
(`resumen_evaluaciones_por_estudiante_y_periodo` in
`app/routers/evaluaciones.py`): the percentage of entries with value ≥ 1,
rounded to two decimals — `presentes = sum(1 for e in evaluaciones if
e.valor >= 1); porcentaje = round((presentes / len(evaluaciones)) * 100, 2)`. -/
def porcentajeAsistencia (evs : List Evaluacion) : ℚ :=
  round2 (((evs.filter fun e => decide (1 ≤ e.valor)).length : ℚ) / evs.length * 100)

/-! ## Data model: attendance sessions -/

/-- `SesionAsistencia` — a geofenced attendance session.  `estado` is the
string column of the source (values `"activa"` / `"cerrada"`); timestamps are
in minutes. -/
structure SesionAsistencia where
  id : ℕ
  docente_id : ℕ
  curso_id : ℕ
  materia_id : ℕ
  periodo_id : ℕ
  titulo : String
  fecha_inicio : ℚ
  fecha_fin : Option ℚ
  minutos_tolerancia : ℚ
  latitud_docente : ℚ
  longitud_docente : ℚ
  radio_permitido_metros : ℚ
  estado : String
  deriving Repr, DecidableEq

/-- `AsistenciaEstudiante` — one attendance record per enrolled student per
session. -/
structure AsistenciaEstudiante where
  sesion_id : ℕ
  estudiante_id : ℕ
  presente : Bool
  es_tardanza : Bool
  justificado : Bool
  fecha_marcado : Option ℚ
  latitud_estudiante : Option ℚ
  longitud_estudiante : Option ℚ
  distancia_metros : Option ℚ
  observaciones : Option String
  deriving Repr, DecidableEq

/-- `Inscripcion` — enrollment of a student in a course. -/
structure Inscripcion where
  estudiante_id : ℕ
  curso_id : ℕ
  gestion_id : ℕ
  deriving Repr, DecidableEq

/-- State touched by the attendance-session engine. -/
structure AttState where
  sesiones : List SesionAsistencia
  asistencias : List AsistenciaEstudiante
  inscripciones : List Inscripcion
  tipos : List TipoEvaluacion
  evaluaciones : List Evaluacion
  deriving Repr

/-- A distance function (two coordinate pairs to meters).  It stands for
`calcular_distancia_haversine`, whose floating-point trigonometry is outside
the embedding; every property proved here holds for an arbitrary `dist`. -/
abbrev DistFn := ℚ → ℚ → ℚ → ℚ → ℚ

/-- `validar_ubicacion_estudiante`: compute the distance and compare it with
the permitted radius; returns `(distancia, dentro_del_rango)` with
`dentro_del_rango = (distancia <= radio_permitido)`. -/
def validar_ubicacion_estudiante (dist : DistFn)
    (lat_docente lon_docente lat_estudiante lon_estudiante radio_permitido : ℚ) :
    ℚ × Bool :=
  let distancia := dist lat_docente lon_docente lat_estudiante lon_estudiante
  (distancia, decide (distancia ≤ radio_permitido))

/-- Modelled from the spec: the property `SesionAsistencia.esta_activa` lives
in `app/models/sesion_asistencia.py`, which is not among the provided sources.
Per §4.3 of the spec, `is_session_live(session)` is true iff
state == `active` AND `now <= start_time + tolerance_minutes`. -/
def esta_activa (now : ℚ) (s : SesionAsistencia) : Bool :=
  s.estado == "activa" && decide (now ≤ s.fecha_inicio + s.minutos_tolerancia)

/-- `obtener_sesion_por_id`: `db.query(SesionAsistencia).filter(id).first()`. -/
def obtener_sesion_por_id (st : AttState) (sesion_id : ℕ) : Option SesionAsistencia :=
  st.sesiones.find? fun s => s.id == sesion_id

/-- The record lookup shared by check-in and its preflight variant:
`db.query(AsistenciaEstudiante).filter(sesion_id, estudiante_id).first()`. -/
def buscarAsistencia (st : AttState) (sesion_id estudiante_id : ℕ) :
    Option AsistenciaEstudiante :=
  st.asistencias.find? fun a =>
    a.sesion_id == sesion_id && a.estudiante_id == estudiante_id

/-- Boolean key of the attendance record of one student in one session. -/
def esAsistenciaDe (sesion_id estudiante_id : ℕ) (a : AsistenciaEstudiante) : Bool :=
  a.sesion_id == sesion_id && a.estudiante_id == estudiante_id

/-- Request body of the check-in endpoint (`MarcarAsistenciaRequest`). -/
structure MarcarAsistenciaRequest where
  latitud_estudiante : ℚ
  longitud_estudiante : ℚ
  observaciones : Option String
  deriving Repr, DecidableEq

/-- The distinct `ValueError`s of `marcar_asistencia_estudiante`, one
constructor per message; `fueraDeRango` carries the computed distance, which
the source interpolates into the message
(`"Estudiante fuera del rango permitido. Distancia: {distancia}m"`). -/
inductive MarcarError where
  | sesionNoEncontrada        -- "Sesión no encontrada"
  | sesionNoActiva            -- "La sesión no está activa o ha expirado"
  | estudianteNoEncontrado    -- "Estudiante no encontrado en esta sesión"
  | yaMarcado                 -- "El estudiante ya ha marcado asistencia"
  | fueraDeRango (distancia : ℚ)
  deriving Repr, DecidableEq

/-- The result dictionary returned by a successful check-in. -/
structure MarcarResultado where
  es_tardanza : Bool
  distancia_metros : ℚ
  dentro_del_rango : Bool
  deriving Repr, DecidableEq

/-- `marcar_asistencia_estudiante`: validated, geofenced check-in.  Returns the
outcome paired with the state after the call (the input state on every
failure, since the source raises before `db.commit()`). -/
def marcar_asistencia_estudiante (dist : DistFn) (now : ℚ) (st : AttState)
    (sesion_id estudiante_id : ℕ) (datos : MarcarAsistenciaRequest) :
    Except MarcarError (AsistenciaEstudiante × MarcarResultado) × AttState :=
  match obtener_sesion_por_id st sesion_id with
  | none => (.error .sesionNoEncontrada, st)
  | some sesion =>
    if !esta_activa now sesion then (.error .sesionNoActiva, st)
    else match buscarAsistencia st sesion_id estudiante_id with
      | none => (.error .estudianteNoEncontrado, st)
      | some asistencia =>
        if asistencia.presente then (.error .yaMarcado, st)
        else
          let vu := validar_ubicacion_estudiante dist
            sesion.latitud_docente sesion.longitud_docente
            datos.latitud_estudiante datos.longitud_estudiante
            sesion.radio_permitido_metros
          if !vu.2 then (.error (.fueraDeRango vu.1), st)
          else
            let es_tardanza := decide (sesion.fecha_inicio < now)
            let marcada : AsistenciaEstudiante :=
              { asistencia with
                  presente := true
                  fecha_marcado := some now
                  latitud_estudiante := some datos.latitud_estudiante
                  longitud_estudiante := some datos.longitud_estudiante
                  distancia_metros := some vu.1
                  es_tardanza := es_tardanza
                  observaciones := datos.observaciones }
            let nuevas := actualizarPrimera
              (esAsistenciaDe sesion_id estudiante_id) (fun _ => marcada)
              st.asistencias
            (.ok (marcada, ⟨es_tardanza, vu.1, vu.2⟩),
             { st with asistencias := nuevas })

/-- The dictionary returned by `validar_puede_marcar_asistencia`. -/
structure ValidacionResultado where
  puede_marcar : Bool
  mensaje : String
  sesion_activa : Bool
  distancia_metros : Option ℚ
  dentro_del_rango : Option Bool
  tiempo_restante_minutos : Option ℤ
  deriving Repr, DecidableEq

/-- `validar_puede_marcar_asistencia`: the side-effect-free preflight variant
of the check-in checks, returning a verdict dictionary instead of mutating. -/
def validar_puede_marcar_asistencia (dist : DistFn) (now : ℚ) (st : AttState)
    (sesion_id estudiante_id : ℕ) (lat_estudiante lon_estudiante : ℚ) :
    ValidacionResultado :=
  match obtener_sesion_por_id st sesion_id with
  | none => ⟨false, "Sesión no encontrada", false, none, none, none⟩
  | some sesion =>
    if !esta_activa now sesion then
      ⟨false, "La sesión no está activa o ha expirado", false, none, none, none⟩
    else match buscarAsistencia st sesion_id estudiante_id with
      | none => ⟨false, "Estudiante no encontrado en esta sesión", true, none, none, none⟩
      | some asistencia =>
        if asistencia.presente then
          ⟨false, "Ya has marcado asistencia", true, none, none, none⟩
        else
          let vu := validar_ubicacion_estudiante dist
            sesion.latitud_docente sesion.longitud_docente
            lat_estudiante lon_estudiante sesion.radio_permitido_metros
          if !vu.2 then
            ⟨false,
             "Estás fuera del rango permitido (" ++ toString sesion.radio_permitido_metros ++
               "m). Tu distancia: " ++ toString vu.1 ++ "m",
             true, some vu.1, some false, none⟩
          else
            let tiempo_limite := sesion.fecha_inicio + sesion.minutos_tolerancia
            let tiempo_restante := tiempo_limite - now
            ⟨true, "Puedes marcar asistencia", true, some vu.1, some true,
             some (max 0 tiempo_restante.floor)⟩

/-! ## Session creation and closing -/

/-- Request body of session creation (`SesionAsistenciaCreate`); `docente_id`
is supplied separately from the authenticated teacher. -/
structure SesionAsistenciaCreate where
  curso_id : ℕ
  materia_id : ℕ
  periodo_id : ℕ
  titulo : String
  fecha_inicio : ℚ
  minutos_tolerancia : ℚ
  latitud_docente : ℚ
  longitud_docente : ℚ
  radio_permitido_metros : ℚ
  deriving Repr, DecidableEq

/-- Whether a stored session is an *active* session of the given
(teacher, course, subject) triple — the duplicate check of
`crear_sesion_asistencia`. -/
def esSesionActivaDe (docente_id curso_id materia_id : ℕ) (s : SesionAsistencia) : Bool :=
  s.docente_id == docente_id && s.curso_id == curso_id &&
  s.materia_id == materia_id && s.estado == "activa"

/-- `crear_sesion_asistencia` together with
`crear_registros_asistencia_estudiantes`: refuse if an active session already
exists for the (teacher, course, subject) triple
(`ValueError "Ya existe una sesión activa para esta materia y curso"` =
`ConflictError`); otherwise persist the session and one `not present`
attendance record per student enrolled in the course.  `nuevo_id` stands for
the database-assigned primary key.  Modelled from the spec: the schema and
model files giving the new row's `estado` default are not among the provided
sources; per §4.2 the session is persisted `active`, so `estado := "activa"`. -/
def crear_sesion_asistencia (st : AttState) (datos : SesionAsistenciaCreate)
    (docente_id : ℕ) (nuevo_id : ℕ) :
    Except Unit (AttState × SesionAsistencia) :=
  match st.sesiones.find? (esSesionActivaDe docente_id datos.curso_id datos.materia_id) with
  | some _ => .error ()
  | none =>
    let sesion : SesionAsistencia :=
      { id := nuevo_id
        docente_id := docente_id
        curso_id := datos.curso_id
        materia_id := datos.materia_id
        periodo_id := datos.periodo_id
        titulo := datos.titulo
        fecha_inicio := datos.fecha_inicio
        fecha_fin := none
        minutos_tolerancia := datos.minutos_tolerancia
        latitud_docente := datos.latitud_docente
        longitud_docente := datos.longitud_docente
        radio_permitido_metros := datos.radio_permitido_metros
        estado := "activa" }
    let inscritos := st.inscripciones.filter fun i => i.curso_id == datos.curso_id
    let registros := inscritos.map fun i =>
      ({ sesion_id := nuevo_id
         estudiante_id := i.estudiante_id
         presente := false
         es_tardanza := false
         justificado := false
         fecha_marcado := none
         latitud_estudiante := none
         longitud_estudiante := none
         distancia_metros := none
         observaciones := none } : AsistenciaEstudiante)
    .ok ({ st with
             sesiones := st.sesiones ++ [sesion]
             asistencias := st.asistencias ++ registros }, sesion)

/-- `func.date` of a timestamp in minutes: the day number. -/
def dia (t : ℚ) : ℤ := (t / 1440).floor

/-- `calcular_valor_asistencia`: the fixed record-state → ledger-value table
(present & on time = 100, present & late = 50, absent & justified = 75,
absent & not justified = 0). -/
def calcular_valor_asistencia (asistencia : AsistenciaEstudiante) : ℚ :=
  if asistencia.presente then
    if asistencia.es_tardanza then 50 else 100
  else if asistencia.justificado then 75 else 0

/-- The upsert key used by `sincronizar_con_evaluaciones`: same student,
subject, period, Attendance category and calendar date as the closing
session. -/
def claveEvaluacion (sesion : SesionAsistencia) (tipo_id : ℕ) (estudiante_id : ℕ)
    (e : Evaluacion) : Bool :=
  e.estudiante_id == estudiante_id && e.materia_id == sesion.materia_id &&
  e.periodo_id == sesion.periodo_id && e.tipo_evaluacion_id == tipo_id &&
  e.fecha == dia sesion.fecha_inicio

/-- One iteration of the reconciliation loop of `sincronizar_con_evaluaciones`:
update the existing ledger row for the student/date, or insert a new one. -/
def upsertEvaluacion (sesion : SesionAsistencia) (tipo_id : ℕ)
    (evs : List Evaluacion) (asistencia : AsistenciaEstudiante) : List Evaluacion :=
  let clave := claveEvaluacion sesion tipo_id asistencia.estudiante_id
  let valor := calcular_valor_asistencia asistencia
  let descripcion := "Asistencia - " ++ sesion.titulo
  match evs.find? clave with
  | some _ =>
    actualizarPrimera clave
      (fun e => { e with valor := valor, descripcion := descripcion }) evs
  | none =>
    evs ++ [{ estudiante_id := asistencia.estudiante_id
              materia_id := sesion.materia_id
              periodo_id := sesion.periodo_id
              tipo_evaluacion_id := tipo_id
              fecha := dia sesion.fecha_inicio
              valor := valor
              descripcion := descripcion }]

/-- The attendance records of one session, in store order
(`sesion.asistencias`). -/
def asistenciasDe (st : AttState) (sesion_id : ℕ) : List AsistenciaEstudiante :=
  st.asistencias.filter fun a => a.sesion_id == sesion_id

/-- Lower-casing of a string, written over the character list so that proofs
can evaluate it (equivalent to `str.lower()` / `String.toLower`). -/
def minusculas (s : String) : String := ⟨s.data.map Char.toLower⟩

/-- The category lookup of `sincronizar_con_evaluaciones`:
`db.query(TipoEvaluacion).filter(TipoEvaluacion.nombre.ilike("Asistencia")).first()`
(`ilike` without wildcards is case-insensitive equality). -/
def buscarTipoAsistencia (tipos : List TipoEvaluacion) : Option TipoEvaluacion :=
  tipos.find? fun t => minusculas t.nombre == "asistencia"

/-- The distinct failures of `cerrar_sesion_asistencia` /
`sincronizar_con_evaluaciones`: a missing session (`None` return), a session
that is not active (`ValueError "La sesión no está activa"` = `StateError`)
and a missing Attendance category
(`ValueError "Tipo de evaluación 'Asistencia' no encontrado"` =
`ConfigurationError`). -/
inductive CerrarError where
  | sesionNoEncontrada
  | sesionNoActiva
  | tipoAsistenciaNoEncontrado
  deriving Repr, DecidableEq

/-- `cerrar_sesion_asistencia` together with `sincronizar_con_evaluaciones`:
close an active session (terminal) and reconcile each of its attendance
records into the grade ledger by upserting against the Attendance category.
An error raised before `db.commit()` leaves the store unchanged. -/
def cerrar_sesion_asistencia (now : ℚ) (st : AttState) (sesion_id : ℕ) :
    Except CerrarError (AttState × SesionAsistencia) :=
  match obtener_sesion_por_id st sesion_id with
  | none => .error .sesionNoEncontrada
  | some sesion =>
    if sesion.estado != "activa" then .error .sesionNoActiva
    else
      let cerrada := { sesion with estado := "cerrada", fecha_fin := some now }
      match buscarTipoAsistencia st.tipos with
      | none => .error .tipoAsistenciaNoEncontrado
      | some tipo_asistencia =>
        let evs := (asistenciasDe st sesion_id).foldl
          (upsertEvaluacion cerrada tipo_asistencia.id) st.evaluaciones
        .ok ({ st with
                 sesiones := actualizarPrimera (fun s => s.id == sesion_id)
                   (fun _ => cerrada) st.sesiones
                 evaluaciones := evs }, cerrada)

/-! ## Notification trigger -/

/-- An evaluation row as read by the notification service: the service's query
inner-joins `Estudiante`, `Materia` and `TipoEvaluacion`, so the row carries
the joined names it interpolates into the message. -/
structure EvaluacionJoin where
  id : ℕ
  estudiante_id : ℕ
  valor : ℚ
  descripcion : String
  estudiante_nombre : String
  estudiante_apellido : String
  materia_nombre : String
  deriving Repr, DecidableEq

/-- `PadreEstudiante` — the guardian/student link table. -/
structure PadreEstudiante where
  padre_id : ℕ
  estudiante_id : ℕ
  deriving Repr, DecidableEq

/-- `Notificacion` — a stored guardian notification. -/
structure Notificacion where
  id : ℕ
  titulo : String
  mensaje : String
  tipo : String
  padre_id : ℕ
  estudiante_id : ℕ
  evaluacion_id : Option ℕ
  leida : Bool
  deriving Repr, DecidableEq

/-- State touched by the notification service; `siguiente_id` stands for the
store's id sequence. -/
structure NotifState where
  evaluaciones : List EvaluacionJoin
  padres : List PadreEstudiante
  notificaciones : List Notificacion
  siguiente_id : ℕ
  deriving Repr

/-- The dedup key of the trigger: an existing notification for the same
guardian, the same evaluation entry and tag `calificacion_baja`. -/
def esNotificacionBaja (padre_id evaluacion_id : ℕ) (n : Notificacion) : Bool :=
  n.padre_id == padre_id && n.evaluacion_id == some evaluacion_id &&
  n.tipo == "calificacion_baja"

/-- The guardians linked to the entry's student:
`db.query(PadreEstudiante.padre_id).filter(estudiante_id).all()`. -/
def padresDe (st : NotifState) (evaluacion : EvaluacionJoin) : List ℕ :=
  (st.padres.filter fun p => p.estudiante_id == evaluacion.estudiante_id).map
    (·.padre_id)

/-- The notification synthesized for one guardian: title and body built from
the student's name, the entry's value and description, and the subject name. -/
def nuevaNotificacion (s : NotifState) (evaluacion : EvaluacionJoin)
    (padre_id : ℕ) : Notificacion :=
  { id := s.siguiente_id
    titulo := "⚠️ Calificación Baja - " ++ evaluacion.estudiante_nombre
    mensaje := "Su hijo(a) " ++ evaluacion.estudiante_nombre ++ " " ++
      evaluacion.estudiante_apellido ++ " obtuvo " ++
      toString evaluacion.valor ++ " puntos en " ++ evaluacion.descripcion ++
      " de la materia " ++ evaluacion.materia_nombre ++
      ". Le recomendamos estar atento al rendimiento académico."
    tipo := "calificacion_baja"
    padre_id := padre_id
    estudiante_id := evaluacion.estudiante_id
    evaluacion_id := some evaluacion.id
    leida := false }

/-- One guardian step of the trigger loop: skip if a `calificacion_baja`
notification already exists for this guardian and entry; skip (logging only)
if the store raises while creating — which the inner `try/except` swallows,
modelled by the failure oracle `falla`; otherwise create the notification and
record its id. -/
def notificarPadre (falla : ℕ → Bool) (evaluacion : EvaluacionJoin)
    (acc : NotifState × List ℕ) (padre_id : ℕ) : NotifState × List ℕ :=
  let s := acc.1
  if s.notificaciones.any (esNotificacionBaja padre_id evaluacion.id) then acc
  else if falla padre_id then acc
  else
    let n := nuevaNotificacion s evaluacion padre_id
    ({ s with notificaciones := s.notificaciones ++ [n]
              siguiente_id := s.siguiente_id + 1 },
     acc.2 ++ [n.id])

/-- `verificar_y_notificar_calificacion_baja`: if the entry exists and its
value is below the threshold, walk the student's guardians creating one
deduplicated `calificacion_baja` notification each; always return the list of
newly created ids (empty for a missing entry, a value at or above the
threshold, or no linked guardians).  `falla` marks the guardians for which the
store's create raises (caught and logged by the source). -/
def verificar_y_notificar_calificacion_baja (falla : ℕ → Bool) (st : NotifState)
    (evaluacion_id : ℕ) (umbral : ℚ) : NotifState × List ℕ :=
  match st.evaluaciones.find? (fun e => e.id == evaluacion_id) with
  | none => (st, [])
  | some evaluacion =>
    if umbral ≤ evaluacion.valor then (st, [])
    else
      let padres := padresDe st evaluacion
      if padres.isEmpty then (st, [])
      else padres.foldl (notificarPadre falla evaluacion) (st, [])

/-! ## Theorems

### Grade aggregation (claims C1, C6) -/

/-- The contribution one category makes to the final score in
`calcular_rendimiento_final`: zero when the weight is unresolvable or the
category has no ledger entries, otherwise `promedio * porcentaje / 100`. -/
def aporteTipo (pesos : List PesoTipoEvaluacion) (evs : List Evaluacion)
    (estudiante_id materia_id periodo_id gestion_id docente_id : ℕ)
    (tipo : TipoEvaluacion) : ℚ :=
  match buscarPeso pesos docente_id materia_id gestion_id tipo.id with
  | none => 0
  | some peso =>
    let evaluaciones := evaluacionesDe evs estudiante_id materia_id periodo_id tipo.id
    if evaluaciones.isEmpty then 0 else promedio evaluaciones * peso.porcentaje / 100

/-- A category is included in the aggregation iff its weight resolves and it
has at least one ledger entry. -/
def tipoIncluido (pesos : List PesoTipoEvaluacion) (evs : List Evaluacion)
    (estudiante_id materia_id periodo_id gestion_id docente_id : ℕ)
    (tipo : TipoEvaluacion) : Bool :=
  (buscarPeso pesos docente_id materia_id gestion_id tipo.id).isSome &&
  !(evaluacionesDe evs estudiante_id materia_id periodo_id tipo.id).isEmpty

/-- The resolved weight of a category (0 when unresolvable, unused then). -/
def pesoDe (pesos : List PesoTipoEvaluacion)
    (docente_id materia_id gestion_id : ℕ) (tipo : TipoEvaluacion) : ℚ :=
  match buscarPeso pesos docente_id materia_id gestion_id tipo.id with
  | none => 0
  | some peso => peso.porcentaje

lemma foldl_eq_add_sum {α : Type} (g : α → ℚ) (f : ℚ → α → ℚ)
    (hf : ∀ a x, f a x = a + g x) :
    ∀ (l : List α) (acc : ℚ), l.foldl f acc = acc + (l.map g).sum := by
  intro l
  induction l with
  | nil => intro acc; simp
  | cons x xs ih => intro acc; simp [hf, ih, add_assoc]

lemma notaFinalLoop_eq_sum (pesos : List PesoTipoEvaluacion) (evs : List Evaluacion)
    (est mat per gestion docente : ℕ) (tipos : List TipoEvaluacion) (acc : ℚ) :
    notaFinalLoop pesos evs est mat per gestion docente tipos acc =
      acc + (tipos.map (aporteTipo pesos evs est mat per gestion docente)).sum := by
  refine foldl_eq_add_sum _ _ (fun a tipo => ?_) tipos acc
  unfold aporteTipo
  cases buscarPeso pesos docente mat gestion tipo.id with
  | none => simp
  | some peso => by_cases h : (evaluacionesDe evs est mat per tipo.id).isEmpty <;> simp [h]

lemma sum_aporte_eq_sum_filter (pesos : List PesoTipoEvaluacion) (evs : List Evaluacion)
    (est mat per gestion docente : ℕ) (tipos : List TipoEvaluacion) :
    (tipos.map (aporteTipo pesos evs est mat per gestion docente)).sum =
      ((tipos.filter (tipoIncluido pesos evs est mat per gestion docente)).map
        (fun tipo => promedio (evaluacionesDe evs est mat per tipo.id) *
          pesoDe pesos docente mat gestion tipo / 100)).sum := by
  induction tipos with
  | nil => rfl
  | cons t ts ih =>
    simp only [List.map_cons, List.sum_cons, List.filter_cons]
    by_cases hinc : tipoIncluido pesos evs est mat per gestion docente t
    · have ht : aporteTipo pesos evs est mat per gestion docente t =
          promedio (evaluacionesDe evs est mat per t.id) *
            pesoDe pesos docente mat gestion t / 100 := by
        unfold tipoIncluido at hinc
        unfold aporteTipo pesoDe
        cases hb : buscarPeso pesos docente mat gestion t.id with
        | none => rw [hb] at hinc; simp at hinc
        | some peso =>
          rw [hb] at hinc
          simp only [Option.isSome_some, Bool.true_and, Bool.not_eq_true'] at hinc
          simp [hinc]
      simp [hinc, ht, ih]
    · have ht : aporteTipo pesos evs est mat per gestion docente t = 0 := by
        unfold tipoIncluido at hinc
        unfold aporteTipo
        cases hb : buscarPeso pesos docente mat gestion t.id with
        | none => rfl
        | some peso =>
          rw [hb] at hinc
          simp only [Option.isSome_some, Bool.true_and, Bool.not_eq_true',
            Bool.not_eq_false] at hinc
          simp [hinc]
      simp [hinc, ht, ih]

lemma upsertRendimiento_mem (est mat per : ℕ) (nota : ℚ) :
    ∀ rs : List RendimientoFinal,
    ∃ r ∈ upsertRendimiento rs est mat per nota,
      (r.estudiante_id == est && r.materia_id == mat && r.periodo_id == per) = true ∧
      r.nota_final = nota := by
  intro rs
  induction rs with
  | nil => exact ⟨⟨est, mat, per, nota⟩, by simp [upsertRendimiento], by simp, rfl⟩
  | cons r rs ih =>
    by_cases hr : (r.estudiante_id == est && r.materia_id == mat &&
        r.periodo_id == per) = true
    · refine ⟨{ r with nota_final := nota }, ?_, by simp [hr], rfl⟩
      simp [upsertRendimiento, List.find?_cons, hr, actualizarPrimera]
    · obtain ⟨r', hmem, hkey, hval⟩ := ih
      refine ⟨r', ?_, hkey, hval⟩
      simp only [upsertRendimiento, List.find?_cons, hr, cond_false] at hmem ⊢
      cases hfind : List.find? (fun x =>
          x.estudiante_id == est && x.materia_id == mat && x.periodo_id == per) rs with
      | none => rw [hfind] at hmem; simpa [actualizarPrimera, hr] using Or.inr hmem
      | some r₀ =>
        rw [hfind] at hmem
        simp only [actualizarPrimera, hr, if_false]
        exact List.mem_cons_of_mem _ hmem

lemma round2_zero : round2 0 = 0 := by decide

/-- Example state for the spec's 50/50 test: two categories weighted 50 each,
one entry of 80 in the first and one of 60 in the second. -/
def ejemploMitades : AggState :=
  { tipos := [⟨1, "Examen"⟩, ⟨2, "Participación"⟩]
    pesos := [⟨1, 1, 1, 1, 50⟩, ⟨1, 1, 1, 2, 50⟩]
    evaluaciones := [⟨1, 1, 1, 1, 0, 80, "ex"⟩, ⟨1, 1, 1, 2, 0, 60, "pa"⟩]
    rendimientos := [] }

/-- Example state whose single category has no resolvable weight. -/
def ejemploSinPeso : AggState :=
  { tipos := [⟨1, "Examen"⟩]
    pesos := []
    evaluaciones := [⟨1, 1, 1, 1, 0, 80, "ex"⟩]
    rendimientos := [] }

/-- C6: the final score computed and stored by `calcular_rendimiento_final`
equals `round(Σ category_score × weight/100, 2)` over exactly the categories
with at least one ledger entry and a resolvable weight for
(teacher, subject, cycle, category); when no category has a resolvable weight
the computed and stored score is 0 with no error; and for two categories
weighted 50/50 with category scores 80 and 60 the final score is 70. -/
theorem C6_nota_final_formula (st : AggState)
    (est mat per gestion docente : ℕ) :
    ((calcular_rendimiento_final st est mat per gestion docente).2 =
      round2 (((st.tipos.filter
          (tipoIncluido st.pesos st.evaluaciones est mat per gestion docente)).map
        (fun tipo => promedio (evaluacionesDe st.evaluaciones est mat per tipo.id) *
          pesoDe st.pesos docente mat gestion tipo / 100)).sum)) ∧
    ((∀ t ∈ st.tipos, buscarPeso st.pesos docente mat gestion t.id = none) →
      (calcular_rendimiento_final st est mat per gestion docente).2 = 0 ∧
      ∃ r ∈ (calcular_rendimiento_final st est mat per gestion docente).1.rendimientos,
        (r.estudiante_id == est && r.materia_id == mat && r.periodo_id == per) = true ∧
        r.nota_final = 0) ∧
    (calcular_rendimiento_final ejemploMitades 1 1 1 1 1).2 = 70 := by
  have hval : (calcular_rendimiento_final st est mat per gestion docente).2 =
      round2 ((st.tipos.map
        (aporteTipo st.pesos st.evaluaciones est mat per gestion docente)).sum) := by
    simp only [calcular_rendimiento_final, notaFinal]
    rw [notaFinalLoop_eq_sum, zero_add]
  refine ⟨?_, ?_, ?_⟩
  · rw [hval, sum_aporte_eq_sum_filter]
  · intro h
    have hsum : (st.tipos.map
        (aporteTipo st.pesos st.evaluaciones est mat per gestion docente)).sum = 0 := by
      apply List.sum_eq_zero
      intro x hx
      obtain ⟨t, ht, rfl⟩ := List.mem_map.mp hx
      unfold aporteTipo
      rw [h t ht]
    have hnota : (calcular_rendimiento_final st est mat per gestion docente).2 = 0 := by
      rw [hval, hsum, round2_zero]
    refine ⟨hnota, ?_⟩
    have hst : (calcular_rendimiento_final st est mat per gestion docente).1.rendimientos =
        upsertRendimiento st.rendimientos est mat per
          (notaFinal st est mat per gestion docente) := rfl
    have hzero : notaFinal st est mat per gestion docente = 0 := hnota
    rw [hst, hzero]
    exact upsertRendimiento_mem est mat per 0 st.rendimientos
  · decide

/-- Witness for C6: at `ejemploSinPeso` no category weight resolves, and the
computed final score is 0. -/
theorem C6_nota_final_formula_witness :
    (calcular_rendimiento_final ejemploSinPeso 1 1 1 1 1).2 = 0 :=
  (((C6_nota_final_formula ejemploSinPeso 1 1 1 1 1).2).1
    (by intro t _; rfl)).1

/-- Example state for C1: the category named "Asistencia" (id 5) carries
weight 100 and has two ledger entries, one of value 50 (present) and one of
value 0 (absent).  Its presence rate is 50%, its arithmetic mean is 25. -/
def ejemploAsistencia : AggState :=
  { tipos := [⟨5, "Asistencia"⟩]
    pesos := [⟨1, 1, 1, 5, 100⟩]
    evaluaciones := [⟨1, 1, 1, 5, 0, 50, "a"⟩, ⟨1, 1, 1, 5, 0, 0, "b"⟩]
    rendimientos := [] }

/-- C1 counterexample: at `ejemploAsistencia` the Attendance category's
presence rate (`porcentajeAsistencia`, the score claimed to be used) is 50,
so under the claim the weighted final score (weight 100) would be 50; the
score actually computed by `calcular_rendimiento_final` is the arithmetic
mean 25.  The claim is therefore false of the code. -/
theorem C1_asistencia_contraejemplo :
    (calcular_rendimiento_final ejemploAsistencia 1 1 1 1 1).2 = 25 ∧
    porcentajeAsistencia (evaluacionesDe ejemploAsistencia.evaluaciones 1 1 1 5) = 50 ∧
    round2 (porcentajeAsistencia
      (evaluacionesDe ejemploAsistencia.evaluaciones 1 1 1 5) * 100 / 100) = 50 ∧
    (25 : ℚ) ≠ 50 := by decide

/-- C1 amended: in `calcular_rendimiento_final` the Attendance category is
treated like every other category — the computation never inspects category
names (renaming every category leaves the result unchanged), and a category
with entries and a resolved weight always contributes its arithmetic mean
times its weight, even when that category is named "Asistencia". -/
theorem C1_asistencia_usa_promedio (st : AggState)
    (est mat per gestion docente : ℕ) (f : TipoEvaluacion → String) :
    ((calcular_rendimiento_final
        { st with tipos := st.tipos.map fun t => { t with nombre := f t } }
        est mat per gestion docente).2 =
      (calcular_rendimiento_final st est mat per gestion docente).2) ∧
    (∀ tipo peso, st.tipos = [tipo] →
      buscarPeso st.pesos docente mat gestion tipo.id = some peso →
      (evaluacionesDe st.evaluaciones est mat per tipo.id).isEmpty = false →
      (calcular_rendimiento_final st est mat per gestion docente).2 =
        round2 (promedio (evaluacionesDe st.evaluaciones est mat per tipo.id) *
          peso.porcentaje / 100)) := by
  constructor
  · have hcomp : (fun t : TipoEvaluacion =>
        aporteTipo st.pesos st.evaluaciones est mat per gestion docente
          { t with nombre := f t }) =
        aporteTipo st.pesos st.evaluaciones est mat per gestion docente :=
      funext fun t => rfl
    show round2 (notaFinalLoop st.pesos st.evaluaciones est mat per gestion docente
        (st.tipos.map fun t => { t with nombre := f t }) 0) =
      round2 (notaFinalLoop st.pesos st.evaluaciones est mat per gestion docente
        st.tipos 0)
    rw [notaFinalLoop_eq_sum, notaFinalLoop_eq_sum, List.map_map]
    rw [show ((aporteTipo st.pesos st.evaluaciones est mat per gestion docente) ∘
        fun t : TipoEvaluacion => { t with nombre := f t }) =
        aporteTipo st.pesos st.evaluaciones est mat per gestion docente from
      funext fun t => rfl]
  · intro tipo peso htipos hpeso hne
    simp only [calcular_rendimiento_final, notaFinal, htipos]
    rw [notaFinalLoop_eq_sum, zero_add]
    simp only [List.map_cons, List.map_nil, List.sum_cons, List.sum_nil, add_zero]
    unfold aporteTipo
    rw [hpeso]
    simp [hne]

/-- Witness for the amended C1: at `ejemploAsistencia`, whose only category is
named "Asistencia", the final score is the rounded mean-times-weight, 25. -/
theorem C1_asistencia_usa_promedio_witness :
    (calcular_rendimiento_final ejemploAsistencia 1 1 1 1 1).2 =
      round2 (promedio (evaluacionesDe ejemploAsistencia.evaluaciones 1 1 1 5) *
        (100 : ℚ) / 100) :=
  (C1_asistencia_usa_promedio ejemploAsistencia 1 1 1 1 1 (fun t => t.nombre)).2
    ⟨5, "Asistencia"⟩ ⟨1, 1, 1, 5, 100⟩ rfl rfl rfl

/-! ### Check-in (claims C2, C3, C7, C10) -/

/-- C7: a successful check-in records `es_tardanza = (now > fecha_inicio)` —
lateness is measured against the session start time, not against start plus
the tolerance window — and the record is marked present; in particular a
check-in strictly after the start (while still live, or it would not have
succeeded) is recorded both present and late. -/
theorem C7_tardanza_contra_inicio (dist : DistFn) (now : ℚ) (st : AttState)
    (sesion_id estudiante_id : ℕ) (datos : MarcarAsistenciaRequest)
    (a : AsistenciaEstudiante) (res : MarcarResultado) (st' : AttState)
    (sesion : SesionAsistencia)
    (hses : obtener_sesion_por_id st sesion_id = some sesion)
    (hok : marcar_asistencia_estudiante dist now st sesion_id estudiante_id datos =
      (.ok (a, res), st')) :
    a.es_tardanza = decide (sesion.fecha_inicio < now) ∧
    res.es_tardanza = decide (sesion.fecha_inicio < now) ∧
    a.presente = true ∧
    (sesion.fecha_inicio < now → a.presente = true ∧ a.es_tardanza = true) := by
  simp only [marcar_asistencia_estudiante, hses] at hok
  split at hok
  · simp at hok
  · split at hok
    · simp at hok
    · split at hok
      · simp at hok
      · split at hok
        · simp at hok
        · simp only [Prod.mk.injEq, Except.ok.injEq] at hok
          obtain ⟨⟨ha, hres⟩, _⟩ := hok
          subst ha
          subst hres
          refine ⟨rfl, rfl, rfl, fun h => ⟨rfl, by simp [h]⟩⟩

/-- Witness state for the check-in theorems: one live session at the origin
with radius 30 and a 10-minute tolerance, one unmarked record for student 7. -/
def ejemploSesion : SesionAsistencia :=
  { id := 1, docente_id := 1, curso_id := 1, materia_id := 1, periodo_id := 1
    titulo := "Clase", fecha_inicio := 1000, fecha_fin := none
    minutos_tolerancia := 10, latitud_docente := 0, longitud_docente := 0
    radio_permitido_metros := 30, estado := "activa" }

def ejemploRegistro : AsistenciaEstudiante :=
  { sesion_id := 1, estudiante_id := 7, presente := false, es_tardanza := false
    justificado := false, fecha_marcado := none, latitud_estudiante := none
    longitud_estudiante := none, distancia_metros := none, observaciones := none }

def ejemploAtt : AttState :=
  { sesiones := [ejemploSesion]
    asistencias := [ejemploRegistro]
    inscripciones := [⟨7, 1, 1⟩]
    tipos := [⟨5, "Asistencia"⟩]
    evaluaciones := [] }

/-- A distance function that reports 30 m everywhere (for witnesses). -/
def dist30 : DistFn := fun _ _ _ _ => 30

/-- Witness for C7: at `ejemploAtt`, checking in at `now = 1005` (after the
start 1000, within tolerance) succeeds and the record is present and late. -/
theorem C7_tardanza_contra_inicio_witness :
    ∃ a res st',
      marcar_asistencia_estudiante dist30 1005 ejemploAtt 1 7 ⟨0, 0, none⟩ =
        (.ok (a, res), st') ∧
      a.es_tardanza = true ∧ a.presente = true := by
  refine ⟨_, _, _, rfl, ?_, ?_⟩
  · exact ((C7_tardanza_contra_inicio dist30 1005 ejemploAtt 1 7 ⟨0, 0, none⟩
      _ _ _ ejemploSesion rfl rfl).2.2.2 (by decide)).2
  · exact ((C7_tardanza_contra_inicio dist30 1005 ejemploAtt 1 7 ⟨0, 0, none⟩
      _ _ _ ejemploSesion rfl rfl).2.2.2 (by decide)).1

/-- C10: the geofence test is boundary-inclusive — a computed distance exactly
equal to the permitted radius yields `dentro_del_rango = true`, and a check-in
is rejected `fueraDeRango` only when the computed distance is strictly greater
than the session's radius. -/
theorem C10_radio_inclusivo (dist : DistFn) (now : ℚ) (st : AttState)
    (sesion_id estudiante_id : ℕ) (datos : MarcarAsistenciaRequest)
    (lat1 lon1 lat2 lon2 radio : ℚ) :
    (dist lat1 lon1 lat2 lon2 = radio →
      validar_ubicacion_estudiante dist lat1 lon1 lat2 lon2 radio = (radio, true)) ∧
    (∀ d, (marcar_asistencia_estudiante dist now st sesion_id estudiante_id datos).1 =
        .error (.fueraDeRango d) →
      ∃ sesion, obtener_sesion_por_id st sesion_id = some sesion ∧
        d = dist sesion.latitud_docente sesion.longitud_docente
              datos.latitud_estudiante datos.longitud_estudiante ∧
        sesion.radio_permitido_metros < d) := by
  constructor
  · intro h
    simp [validar_ubicacion_estudiante, h]
  · intro d herr
    cases hses : obtener_sesion_por_id st sesion_id with
    | none => simp [marcar_asistencia_estudiante, hses] at herr
    | some sesion =>
      simp only [marcar_asistencia_estudiante, hses] at herr
      refine ⟨sesion, rfl, ?_⟩
      split at herr
      · simp at herr
      · split at herr
        · simp at herr
        · split at herr
          · simp at herr
          · split at herr
            · rename_i hrange
              simp only [Except.error.injEq, MarcarError.fueraDeRango.injEq] at herr
              simp only [validar_ubicacion_estudiante, Bool.not_eq_true',
                decide_eq_false_iff_not, not_le] at hrange
              simp only [validar_ubicacion_estudiante] at herr
              exact ⟨herr.symm, herr ▸ hrange⟩
            · simp at herr

/-- Witness for C10: with the constant-30 distance function and radius 30 the
location check reports exactly the radius and `dentro_del_rango = true`. -/
theorem C10_radio_inclusivo_witness :
    validar_ubicacion_estudiante dist30 0 0 0 0 30 = (30, true) :=
  (C10_radio_inclusivo dist30 1005 ejemploAtt 1 7 ⟨0, 0, none⟩ 0 0 0 0 30).1 rfl

lemma find?_actualizarPrimera {α : Type} (p : α → Bool) (f : α → α) :
    ∀ (l : List α) (x : α), l.find? p = some x → p (f x) = true →
      (actualizarPrimera p f l).find? p = some (f x) := by
  intro l
  induction l with
  | nil => intro x hx _; simp at hx
  | cons e es ih =>
    intro x hx hpf
    by_cases hp : p e
    · rw [List.find?_cons_of_pos _ hp] at hx
      injection hx with hx
      subst hx
      simp only [actualizarPrimera, hp, if_true]
      exact List.find?_cons_of_pos _ hpf
    · rw [List.find?_cons_of_neg _ hp] at hx
      have hp' : p e = false := by simpa using hp
      simp only [actualizarPrimera, hp', Bool.false_eq_true, if_false]
      rw [List.find?_cons_of_neg _ hp]
      exact ih x hx hpf

/-- A session that at `now = 20` is past its tolerance window of 10 minutes. -/
def ejemploSesionExpirada : SesionAsistencia :=
  { ejemploSesion with fecha_inicio := 0, minutos_tolerancia := 10 }

/-- State for the C2 counterexample: the session exists but is expired, and
student 7 has no attendance record at all. -/
def ejemploAttExpirado : AttState :=
  { sesiones := [ejemploSesionExpirada]
    asistencias := []
    inscripciones := []
    tipos := []
    evaluaciones := [] }

/-- C2 counterexample: with the session present but not live and the student's
attendance record missing, the claimed order (NotFound for a missing record
before the liveness StateError) would give `estudianteNoEncontrado`, but the
code raises the liveness error `sesionNoActiva` — the record-existence check
runs after the liveness check, not before. -/
theorem C2_orden_contraejemplo :
    buscarAsistencia ejemploAttExpirado 1 7 = none ∧
    esta_activa 20 ejemploSesionExpirada = false ∧
    (marcar_asistencia_estudiante dist30 20 ejemploAttExpirado 1 7 ⟨0, 0, none⟩).1 =
      .error .sesionNoActiva ∧
    MarcarError.sesionNoActiva ≠ MarcarError.estudianteNoEncontrado :=
  ⟨rfl, rfl, rfl, by decide⟩

/-- C2 amended: `marcar_asistencia_estudiante` fails in the order — session
missing (`NotFoundError`), session not live (`StateError`), record missing
(`NotFoundError`), record already marked (`AlreadyMarkedError`), distance
strictly beyond the radius (`OutOfRangeError`, carrying the computed
distance); every failure leaves the store unchanged, and after a successful
check-in a second call on any live instant fails with `AlreadyMarkedError`
and leaves the post-success state untouched. -/
theorem C2_fallos_ordenados (dist : DistFn) (now : ℚ) (st : AttState)
    (sesion_id estudiante_id : ℕ) (datos : MarcarAsistenciaRequest) :
    (∀ e, (marcar_asistencia_estudiante dist now st sesion_id estudiante_id datos).1 =
        .error e →
      (marcar_asistencia_estudiante dist now st sesion_id estudiante_id datos).2 = st) ∧
    (obtener_sesion_por_id st sesion_id = none →
      (marcar_asistencia_estudiante dist now st sesion_id estudiante_id datos).1 =
        .error .sesionNoEncontrada) ∧
    (∀ sesion, obtener_sesion_por_id st sesion_id = some sesion →
      esta_activa now sesion = false →
      (marcar_asistencia_estudiante dist now st sesion_id estudiante_id datos).1 =
        .error .sesionNoActiva) ∧
    (∀ sesion, obtener_sesion_por_id st sesion_id = some sesion →
      esta_activa now sesion = true →
      buscarAsistencia st sesion_id estudiante_id = none →
      (marcar_asistencia_estudiante dist now st sesion_id estudiante_id datos).1 =
        .error .estudianteNoEncontrado) ∧
    (∀ sesion a, obtener_sesion_por_id st sesion_id = some sesion →
      esta_activa now sesion = true →
      buscarAsistencia st sesion_id estudiante_id = some a →
      a.presente = true →
      (marcar_asistencia_estudiante dist now st sesion_id estudiante_id datos).1 =
        .error .yaMarcado) ∧
    (∀ sesion a, obtener_sesion_por_id st sesion_id = some sesion →
      esta_activa now sesion = true →
      buscarAsistencia st sesion_id estudiante_id = some a →
      a.presente = false →
      sesion.radio_permitido_metros <
        dist sesion.latitud_docente sesion.longitud_docente
          datos.latitud_estudiante datos.longitud_estudiante →
      (marcar_asistencia_estudiante dist now st sesion_id estudiante_id datos).1 =
        .error (.fueraDeRango (dist sesion.latitud_docente sesion.longitud_docente
          datos.latitud_estudiante datos.longitud_estudiante))) ∧
    (∀ a res st', marcar_asistencia_estudiante dist now st sesion_id estudiante_id datos =
        (.ok (a, res), st') →
      ∀ (dist2 : DistFn) (now2 : ℚ) (datos2 : MarcarAsistenciaRequest),
        (∀ sesion, obtener_sesion_por_id st sesion_id = some sesion →
          esta_activa now2 sesion = true) →
        marcar_asistencia_estudiante dist2 now2 st' sesion_id estudiante_id datos2 =
          (.error .yaMarcado, st')) := by
  refine ⟨?_, ?_, ?_, ?_, ?_, ?_, ?_⟩
  · intro e herr
    rcases hses : obtener_sesion_por_id st sesion_id with _ | sesion
    · simp [marcar_asistencia_estudiante, hses]
    · by_cases hact : esta_activa now sesion = true
      · rcases hrec : buscarAsistencia st sesion_id estudiante_id with _ | a0
        · simp [marcar_asistencia_estudiante, hses, hact, hrec]
        · by_cases hpres : a0.presente = true
          · simp [marcar_asistencia_estudiante, hses, hact, hrec, hpres]
          · by_cases hvu : dist sesion.latitud_docente sesion.longitud_docente
                datos.latitud_estudiante datos.longitud_estudiante ≤
                sesion.radio_permitido_metros
            · simp [marcar_asistencia_estudiante, hses, hact, hrec, hpres,
                validar_ubicacion_estudiante, hvu] at herr
            · simp [marcar_asistencia_estudiante, hses, hact, hrec, hpres,
                validar_ubicacion_estudiante, hvu]
      · simp [marcar_asistencia_estudiante, hses, hact]
  · intro hses
    simp [marcar_asistencia_estudiante, hses]
  · intro sesion hses hact
    simp [marcar_asistencia_estudiante, hses, hact]
  · intro sesion hses hact hrec
    simp [marcar_asistencia_estudiante, hses, hact, hrec]
  · intro sesion a hses hact hrec hpres
    simp [marcar_asistencia_estudiante, hses, hact, hrec, hpres]
  · intro sesion a hses hact hrec hpres hfar
    simp [marcar_asistencia_estudiante, hses, hact, hrec, hpres,
      validar_ubicacion_estudiante, not_le.mpr hfar, hfar]
  · intro a res st' hok dist2 now2 datos2 hlive
    rcases hses : obtener_sesion_por_id st sesion_id with _ | sesion
    · simp [marcar_asistencia_estudiante, hses] at hok
    by_cases hact : esta_activa now sesion = true
    case neg =>
      have hact' : esta_activa now sesion = false := by simpa using hact
      simp [marcar_asistencia_estudiante, hses, hact'] at hok
    rcases hrec : buscarAsistencia st sesion_id estudiante_id with _ | a0
    · simp [marcar_asistencia_estudiante, hses, hact, hrec] at hok
    by_cases hpres0 : a0.presente = true
    case pos =>
      simp [marcar_asistencia_estudiante, hses, hact, hrec, hpres0] at hok
    have hpres0' : a0.presente = false := by simpa using hpres0
    by_cases hvu : dist sesion.latitud_docente sesion.longitud_docente
        datos.latitud_estudiante datos.longitud_estudiante ≤
        sesion.radio_permitido_metros
    case neg =>
      simp [marcar_asistencia_estudiante, hses, hact, hrec, hpres0',
        validar_ubicacion_estudiante, hvu] at hok
    simp only [marcar_asistencia_estudiante, hses, hact, hrec, hpres0',
      validar_ubicacion_estudiante, hvu, Bool.not_eq_true', decide_eq_false_iff_not,
      not_le, Bool.not_true, if_false, decide_eq_true_eq, Bool.false_eq_true,
      not_lt.mpr hvu, if_true, Prod.mk.injEq, Except.ok.injEq, decide_True,
      Bool.not_false] at hok
    rcases hok with ⟨⟨ha, _⟩, hst'⟩
    · have hkey : esAsistenciaDe sesion_id estudiante_id a0 = true :=
        List.find?_some hrec
      have hses' : obtener_sesion_por_id st' sesion_id = some sesion := by
        rw [← hst']; exact hses
      have hrec' : buscarAsistencia st' sesion_id estudiante_id = some a := by
        rw [← hst', ← ha]
        exact find?_actualizarPrimera (esAsistenciaDe sesion_id estudiante_id)
          _ st.asistencias a0 hrec (by simpa [esAsistenciaDe] using hkey)
      have hpres : a.presente = true := by rw [← ha]
      simp [marcar_asistencia_estudiante, hses', hlive sesion hses, hrec', hpres]

/-- Witness for the amended C2: a successful check-in at `ejemploAtt`
followed by a second call one minute later fails `yaMarcado` and keeps the
first call's state. -/
theorem C2_fallos_ordenados_witness :
    marcar_asistencia_estudiante dist30 1006
        (marcar_asistencia_estudiante dist30 1005 ejemploAtt 1 7 ⟨0, 0, none⟩).2 1 7
        ⟨1, 1, none⟩ =
      (.error .yaMarcado,
        (marcar_asistencia_estudiante dist30 1005 ejemploAtt 1 7 ⟨0, 0, none⟩).2) := by
  refine (C2_fallos_ordenados dist30 1005 ejemploAtt 1 7 ⟨0, 0, none⟩).2.2.2.2.2.2
    _ _ _ rfl dist30 1006 ⟨1, 1, none⟩ ?_
  intro sesion hses
  have h := Option.some.inj (show some ejemploSesion = some sesion from hses)
  subst h
  decide

lemma mensaje_rango_ne (x y m : String)
    (hm : m.length < ("Estás fuera del rango permitido (").length +
      ("m). Tu distancia: ").length + ("m").length) :
    "Estás fuera del rango permitido (" ++ x ++ "m). Tu distancia: " ++ y ++ "m" ≠ m := by
  intro h
  have hl := congrArg String.length h
  simp only [String.length_append] at hl
  omega

/-- C3: the side-effect-free preflight `validar_puede_marcar_asistencia`
reaches exactly the verdict of `marcar_asistencia_estudiante` on the same
store, instant and coordinates: `puede_marcar` is true precisely when the
check-in would succeed, each fixed failure message appears precisely when the
check-in would raise the corresponding error, and the out-of-range report
(`dentro_del_rango = some false`) appears precisely when the check-in would
raise `fueraDeRango`. -/
theorem C3_paridad_preflight (dist : DistFn) (now : ℚ) (st : AttState)
    (sesion_id estudiante_id : ℕ) (lat lon : ℚ) (obs : Option String) :
    ((validar_puede_marcar_asistencia dist now st sesion_id estudiante_id
        lat lon).puede_marcar = true ↔
      ∃ r, (marcar_asistencia_estudiante dist now st sesion_id estudiante_id
        ⟨lat, lon, obs⟩).1 = .ok r) ∧
    ((validar_puede_marcar_asistencia dist now st sesion_id estudiante_id
        lat lon).mensaje = "Sesión no encontrada" ↔
      (marcar_asistencia_estudiante dist now st sesion_id estudiante_id
        ⟨lat, lon, obs⟩).1 = .error .sesionNoEncontrada) ∧
    ((validar_puede_marcar_asistencia dist now st sesion_id estudiante_id
        lat lon).mensaje = "La sesión no está activa o ha expirado" ↔
      (marcar_asistencia_estudiante dist now st sesion_id estudiante_id
        ⟨lat, lon, obs⟩).1 = .error .sesionNoActiva) ∧
    ((validar_puede_marcar_asistencia dist now st sesion_id estudiante_id
        lat lon).mensaje = "Estudiante no encontrado en esta sesión" ↔
      (marcar_asistencia_estudiante dist now st sesion_id estudiante_id
        ⟨lat, lon, obs⟩).1 = .error .estudianteNoEncontrado) ∧
    ((validar_puede_marcar_asistencia dist now st sesion_id estudiante_id
        lat lon).mensaje = "Ya has marcado asistencia" ↔
      (marcar_asistencia_estudiante dist now st sesion_id estudiante_id
        ⟨lat, lon, obs⟩).1 = .error .yaMarcado) ∧
    ((validar_puede_marcar_asistencia dist now st sesion_id estudiante_id
        lat lon).dentro_del_rango = some false ↔
      ∃ d, (marcar_asistencia_estudiante dist now st sesion_id estudiante_id
        ⟨lat, lon, obs⟩).1 = .error (.fueraDeRango d)) := by
  rcases hses : obtener_sesion_por_id st sesion_id with _ | sesion
  · simp [validar_puede_marcar_asistencia, marcar_asistencia_estudiante, hses]
  by_cases hact : esta_activa now sesion = true
  case neg =>
    have hact' : esta_activa now sesion = false := by simpa using hact
    simp [validar_puede_marcar_asistencia, marcar_asistencia_estudiante, hses, hact']
  rcases hrec : buscarAsistencia st sesion_id estudiante_id with _ | a0
  · simp [validar_puede_marcar_asistencia, marcar_asistencia_estudiante, hses,
      hact, hrec]
  by_cases hpres : a0.presente = true
  case pos =>
    simp [validar_puede_marcar_asistencia, marcar_asistencia_estudiante, hses,
      hact, hrec, hpres]
  have hpres' : a0.presente = false := by simpa using hpres
  by_cases hvu : dist sesion.latitud_docente sesion.longitud_docente lat lon ≤
      sesion.radio_permitido_metros
  case pos =>
    simp [validar_puede_marcar_asistencia, marcar_asistencia_estudiante, hses,
      hact, hrec, hpres', validar_ubicacion_estudiante, hvu]
  have h1 := mensaje_rango_ne (toString sesion.radio_permitido_metros)
    (toString (dist sesion.latitud_docente sesion.longitud_docente lat lon))
    "Sesión no encontrada" (by decide)
  have h2 := mensaje_rango_ne (toString sesion.radio_permitido_metros)
    (toString (dist sesion.latitud_docente sesion.longitud_docente lat lon))
    "La sesión no está activa o ha expirado" (by decide)
  have h3 := mensaje_rango_ne (toString sesion.radio_permitido_metros)
    (toString (dist sesion.latitud_docente sesion.longitud_docente lat lon))
    "Estudiante no encontrado en esta sesión" (by decide)
  have h4 := mensaje_rango_ne (toString sesion.radio_permitido_metros)
    (toString (dist sesion.latitud_docente sesion.longitud_docente lat lon))
    "Ya has marcado asistencia" (by decide)
  simp [validar_puede_marcar_asistencia, marcar_asistencia_estudiante, hses,
    hact, hrec, hpres', validar_ubicacion_estudiante, hvu, h1, h2, h3, h4]

/-! ### Session close and reconciliation (claim C4) -/

lemma countP_actualizarPrimera {α : Type} (p q : α → Bool) (f : α → α)
    (hq : ∀ e, q (f e) = q e) :
    ∀ l : List α, (actualizarPrimera p f l).countP q = l.countP q := by
  intro l
  induction l with
  | nil => rfl
  | cons e es ih =>
    by_cases hp : p e
    · simp [actualizarPrimera, hp, List.countP_cons, hq]
    · have hp' : p e = false := by simpa using hp
      simp [actualizarPrimera, hp', List.countP_cons, ih]

lemma forall_mem_actualizarPrimera {α : Type} (p q : α → Bool) (f : α → α)
    (P : α → Prop) (hqf : ∀ e, q (f e) = q e)
    (hdisj : ∀ e, p e = true → q e = false) :
    ∀ l : List α, (∀ e ∈ l, q e = true → P e) →
      ∀ e ∈ actualizarPrimera p f l, q e = true → P e := by
  intro l
  induction l with
  | nil => intro _ e he; simp [actualizarPrimera] at he
  | cons x xs ih =>
    intro h e he hqe
    by_cases hp : p x
    · simp only [actualizarPrimera, hp, if_true] at he
      rcases List.mem_cons.mp he with rfl | hmem
      · rw [hqf, hdisj x hp] at hqe; cases hqe
      · exact h e (List.mem_cons_of_mem _ hmem) hqe
    · have hp' : p x = false := by simpa using hp
      simp only [actualizarPrimera, hp', Bool.false_eq_true, if_false] at he
      rcases List.mem_cons.mp he with rfl | hmem
      · exact h e (List.mem_cons_self _ _) hqe
      · exact ih (fun e' he' hq' => h e' (List.mem_cons_of_mem _ he') hq') e hmem hqe

lemma valor_actualizarPrimera {α : Type} (q : α → Bool) (f : α → α) (P : α → Prop)
    (_hq : ∀ e, q (f e) = q e) (hPf : ∀ e, q e = true → P (f e)) :
    ∀ l : List α, l.countP q ≤ 1 →
      ∀ e ∈ actualizarPrimera q f l, q e = true → P e := by
  intro l
  induction l with
  | nil => intro _ e he; simp [actualizarPrimera] at he
  | cons x xs ih =>
    intro hc e he hqe
    by_cases hx : q x
    · simp only [actualizarPrimera, hx, if_true] at he
      rcases List.mem_cons.mp he with rfl | hmem
      · exact hPf x hx
      · exfalso
        have h0 : xs.countP q = 0 := by
          rw [List.countP_cons, hx] at hc
          simp only [if_true] at hc
          omega
        exact absurd hqe (by simpa using List.countP_eq_zero.mp h0 e hmem)
    · have hx' : q x = false := by simpa using hx
      simp only [actualizarPrimera, hx', Bool.false_eq_true, if_false] at he
      rcases List.mem_cons.mp he with rfl | hmem
      · rw [hx'] at hqe; cases hqe
      · refine ih ?_ e hmem hqe
        rw [List.countP_cons, hx'] at hc
        omega

lemma claveEvaluacion_disjoint (ses : SesionAsistencia) (tid : ℕ) {s s' : ℕ}
    (h : s ≠ s') (e : Evaluacion) :
    claveEvaluacion ses tid s e = true → claveEvaluacion ses tid s' e = false := by
  simp only [claveEvaluacion, Bool.and_eq_true, beq_iff_eq, Bool.and_eq_false_iff,
    beq_eq_false_iff_ne, ne_eq]
  rintro ⟨⟨⟨⟨he, _⟩, _⟩, _⟩, _⟩
  exact Or.inl <| Or.inl <| Or.inl <| Or.inl fun h' => h (he.symm.trans h')

lemma upsertEvaluacion_preserva_clave (ses : SesionAsistencia) (tid s : ℕ)
    (valor : ℚ) (descripcion : String) (e : Evaluacion) :
    claveEvaluacion ses tid s { e with valor := valor, descripcion := descripcion } =
      claveEvaluacion ses tid s e := rfl

lemma upsertEvaluacion_self (ses : SesionAsistencia) (tid : ℕ)
    (evs : List Evaluacion) (a : AsistenciaEstudiante)
    (hdup : evs.countP (claveEvaluacion ses tid a.estudiante_id) ≤ 1) :
    (upsertEvaluacion ses tid evs a).countP
        (claveEvaluacion ses tid a.estudiante_id) = 1 ∧
    ∀ e ∈ upsertEvaluacion ses tid evs a,
      claveEvaluacion ses tid a.estudiante_id e = true →
        e.valor = calcular_valor_asistencia a := by
  rcases hf : evs.find? (claveEvaluacion ses tid a.estudiante_id) with _ | e₀
  · have h0 : evs.countP (claveEvaluacion ses tid a.estudiante_id) = 0 := by
      rw [List.countP_eq_zero]
      intro e he
      simpa using List.find?_eq_none.mp hf e he
    constructor
    · simp only [upsertEvaluacion, hf]
      rw [List.countP_append, h0]
      simp [claveEvaluacion]
    · intro e he hq
      simp only [upsertEvaluacion, hf] at he
      rcases List.mem_append.mp he with hmem | hmem
      · exact absurd hq (by simpa using List.find?_eq_none.mp hf e hmem)
      · rw [List.mem_singleton.mp hmem]
  · constructor
    · simp only [upsertEvaluacion, hf]
      rw [countP_actualizarPrimera _ _ _
        (upsertEvaluacion_preserva_clave ses tid a.estudiante_id _ _)]
      have hmem := List.mem_of_find?_eq_some hf
      have htrue := List.find?_some hf
      have hpos : 0 < evs.countP (claveEvaluacion ses tid a.estudiante_id) :=
        List.countP_pos_iff.mpr ⟨e₀, hmem, htrue⟩
      omega
    · intro e he hq
      simp only [upsertEvaluacion, hf] at he
      exact valor_actualizarPrimera (claveEvaluacion ses tid a.estudiante_id)
        (fun e => { e with valor := calcular_valor_asistencia a,
                           descripcion := "Asistencia - " ++ ses.titulo })
        (fun e => e.valor = calcular_valor_asistencia a)
        (upsertEvaluacion_preserva_clave ses tid a.estudiante_id _ _)
        (fun _ _ => rfl) evs hdup e he hq

lemma clave_nuevo (ses : SesionAsistencia) (tid s : ℕ) (b : AsistenciaEstudiante) :
    claveEvaluacion ses tid s
      { estudiante_id := b.estudiante_id, materia_id := ses.materia_id,
        periodo_id := ses.periodo_id, tipo_evaluacion_id := tid,
        fecha := dia ses.fecha_inicio,
        valor := calcular_valor_asistencia b,
        descripcion := "Asistencia - " ++ ses.titulo } = (b.estudiante_id == s) := by
  simp [claveEvaluacion]

lemma upsertEvaluacion_otro (ses : SesionAsistencia) (tid : ℕ)
    (evs : List Evaluacion) (b : AsistenciaEstudiante) (s : ℕ)
    (P : Evaluacion → Prop) (hne : b.estudiante_id ≠ s) :
    (upsertEvaluacion ses tid evs b).countP (claveEvaluacion ses tid s) =
      evs.countP (claveEvaluacion ses tid s) ∧
    ((∀ e ∈ evs, claveEvaluacion ses tid s e = true → P e) →
      ∀ e ∈ upsertEvaluacion ses tid evs b,
        claveEvaluacion ses tid s e = true → P e) := by
  rcases hf : evs.find? (claveEvaluacion ses tid b.estudiante_id) with _ | e₀
  · constructor
    · simp only [upsertEvaluacion, hf]
      rw [List.countP_append]
      simp [clave_nuevo, hne]
    · intro h e he hq
      simp only [upsertEvaluacion, hf] at he
      rcases List.mem_append.mp he with hmem | hmem
      · exact h e hmem hq
      · rw [List.mem_singleton.mp hmem] at hq
        rw [clave_nuevo] at hq
        exact absurd (by simpa using hq) hne
  · constructor
    · simp only [upsertEvaluacion, hf]
      exact countP_actualizarPrimera _ _ _
        (upsertEvaluacion_preserva_clave ses tid s _ _) evs
    · intro h e he hq
      simp only [upsertEvaluacion, hf] at he
      exact forall_mem_actualizarPrimera _ _ _ P
        (upsertEvaluacion_preserva_clave ses tid s _ _)
        (claveEvaluacion_disjoint ses tid hne) evs h e he hq

lemma fold_upsert_otros (ses : SesionAsistencia) (tid s : ℕ) (P : Evaluacion → Prop) :
    ∀ (rs : List AsistenciaEstudiante) (evs : List Evaluacion),
      (∀ b ∈ rs, b.estudiante_id ≠ s) →
      (rs.foldl (upsertEvaluacion ses tid) evs).countP (claveEvaluacion ses tid s) =
        evs.countP (claveEvaluacion ses tid s) ∧
      ((∀ e ∈ evs, claveEvaluacion ses tid s e = true → P e) →
        ∀ e ∈ rs.foldl (upsertEvaluacion ses tid) evs,
          claveEvaluacion ses tid s e = true → P e) := by
  intro rs
  induction rs with
  | nil => intro evs _; exact ⟨rfl, fun h => h⟩
  | cons b bs ih =>
    intro evs hrs
    have hb : b.estudiante_id ≠ s := hrs b (List.mem_cons_self _ _)
    obtain ⟨hc, hp⟩ := upsertEvaluacion_otro ses tid evs b s P hb
    obtain ⟨hc', hp'⟩ := ih (upsertEvaluacion ses tid evs b)
      (fun x hx => hrs x (List.mem_cons_of_mem _ hx))
    refine ⟨?_, ?_⟩
    · rw [List.foldl_cons, hc', hc]
    · intro h
      rw [List.foldl_cons]
      exact hp' (hp h)

lemma fold_upsert_valor (ses : SesionAsistencia) (tid : ℕ) :
    ∀ (rs : List AsistenciaEstudiante) (evs : List Evaluacion),
      rs.Pairwise (fun x y => x.estudiante_id ≠ y.estudiante_id) →
      (∀ a ∈ rs, evs.countP (claveEvaluacion ses tid a.estudiante_id) ≤ 1) →
      ∀ a ∈ rs,
        (rs.foldl (upsertEvaluacion ses tid) evs).countP
            (claveEvaluacion ses tid a.estudiante_id) = 1 ∧
        ∀ e ∈ rs.foldl (upsertEvaluacion ses tid) evs,
          claveEvaluacion ses tid a.estudiante_id e = true →
            e.valor = calcular_valor_asistencia a := by
  intro rs
  induction rs with
  | nil => intro evs _ _ a ha; simp at ha
  | cons b bs ih =>
    intro evs hpw hdup a ha
    rw [List.foldl_cons]
    rcases List.mem_cons.mp ha with rfl | ha'
    · obtain ⟨h1, h2⟩ := upsertEvaluacion_self ses tid evs a
        (hdup a (List.mem_cons_self _ _))
      have hbs : ∀ x ∈ bs, x.estudiante_id ≠ a.estudiante_id := by
        intro x hx
        exact ((List.pairwise_cons.mp hpw).1 x hx).symm
      obtain ⟨hc, hp⟩ := fold_upsert_otros ses tid a.estudiante_id
        (fun e => e.valor = calcular_valor_asistencia a) bs
        (upsertEvaluacion ses tid evs a) hbs
      exact ⟨hc.trans h1, hp h2⟩
    · have hdup' : ∀ x ∈ bs, (upsertEvaluacion ses tid evs b).countP
          (claveEvaluacion ses tid x.estudiante_id) ≤ 1 := by
        intro x hx
        have hxb : b.estudiante_id ≠ x.estudiante_id :=
          (List.pairwise_cons.mp hpw).1 x hx
        rw [(upsertEvaluacion_otro ses tid evs b x.estudiante_id (fun _ => True) hxb).1]
        exact hdup x (List.mem_cons_of_mem _ hx)
      exact ih (upsertEvaluacion ses tid evs b) (List.pairwise_cons.mp hpw).2 hdup' a ha'

/-- C4: a successful close of a session reconciles every attendance record of
the session into the Attendance ledger by the fixed table (present & on
time = 100, present & late = 50, absent & justified = 75, absent & not
justified = 0); given that the ledger holds at most one row per key
beforehand and the session carries one record per student, afterwards the
ledger holds exactly one row per student for the session's date and that
row's value is the table value; and a second close of the same session fails
with `StateError` (so it cannot duplicate any row). -/
theorem C4_cierre_reconciliacion (now : ℚ) (st : AttState) (sesion_id : ℕ)
    (st' : AttState) (cerrada : SesionAsistencia) (tipo : TipoEvaluacion)
    (hok : cerrar_sesion_asistencia now st sesion_id = .ok (st', cerrada))
    (htipo : buscarTipoAsistencia st.tipos = some tipo)
    (hnodup : (asistenciasDe st sesion_id).Pairwise
      (fun x y => x.estudiante_id ≠ y.estudiante_id))
    (hdup : ∀ a ∈ asistenciasDe st sesion_id,
      st.evaluaciones.countP (claveEvaluacion cerrada tipo.id a.estudiante_id) ≤ 1) :
    cerrada.estado = "cerrada" ∧
    (∀ a ∈ asistenciasDe st sesion_id,
      st'.evaluaciones.countP (claveEvaluacion cerrada tipo.id a.estudiante_id) = 1 ∧
      ∀ e ∈ st'.evaluaciones,
        claveEvaluacion cerrada tipo.id a.estudiante_id e = true →
          e.valor = (if a.presente then (if a.es_tardanza then 50 else 100)
                     else if a.justificado then 75 else 0)) ∧
    (∀ now2 : ℚ, cerrar_sesion_asistencia now2 st' sesion_id =
      .error .sesionNoActiva) := by
  rcases hses : obtener_sesion_por_id st sesion_id with _ | s0
  · simp [cerrar_sesion_asistencia, hses] at hok
  by_cases hact : s0.estado = "activa"
  case neg =>
    have : (s0.estado != "activa") = true := by
      simpa [bne_iff_ne] using hact
    simp [cerrar_sesion_asistencia, hses, this] at hok
  have hbne : (s0.estado != "activa") = false := by
    simp [bne_iff_ne, hact]
  simp only [cerrar_sesion_asistencia, hses, hbne, Bool.false_eq_true, if_false,
    htipo, Except.ok.injEq, Prod.mk.injEq] at hok
  obtain ⟨hst', hcer⟩ := hok
  subst hst'
  subst hcer
  have hid0 : (s0.id == sesion_id) = true :=
    @List.find?_some SesionAsistencia (fun s => s.id == sesion_id) s0
      st.sesiones hses
  refine ⟨rfl, ?_, ?_⟩
  · intro a ha
    exact fold_upsert_valor _ tipo.id (asistenciasDe st sesion_id)
      st.evaluaciones hnodup hdup a ha
  · intro now2
    have hses' : obtener_sesion_por_id
        { st with
            sesiones := actualizarPrimera (fun s => s.id == sesion_id)
              (fun _ => { s0 with estado := "cerrada", fecha_fin := some now })
              st.sesiones
            evaluaciones := (asistenciasDe st sesion_id).foldl
              (upsertEvaluacion { s0 with estado := "cerrada", fecha_fin := some now }
                tipo.id) st.evaluaciones } sesion_id =
        some { s0 with estado := "cerrada", fecha_fin := some now } :=
      find?_actualizarPrimera (fun s : SesionAsistencia => s.id == sesion_id)
        (fun _ => { s0 with estado := "cerrada", fecha_fin := some now })
        st.sesiones s0 hses hid0
    have hcerrado : (SesionAsistencia.estado
        { s0 with estado := "cerrada", fecha_fin := some now } != "activa") = true := by
      show (("cerrada" : String) != "activa") = true
      decide
    simp [cerrar_sesion_asistencia, hses', hcerrado]

/-- Witness for C4: closing the one-record session of `ejemploAtt` (student 7
absent and not justified) produces exactly one Attendance ledger row for that
student with value 0, and a second close fails with the StateError. -/
theorem C4_cierre_reconciliacion_witness :
    ∃ st' cerrada, cerrar_sesion_asistencia 2000 ejemploAtt 1 = .ok (st', cerrada) ∧
      st'.evaluaciones.countP (claveEvaluacion cerrada 5 7) = 1 ∧
      cerrar_sesion_asistencia 0 st' 1 = .error .sesionNoActiva := by
  refine ⟨{ ejemploAtt with
              sesiones := [{ ejemploSesion with estado := "cerrada", fecha_fin := some 2000 }]
              evaluaciones := [{ estudiante_id := 7, materia_id := 1, periodo_id := 1,
                                 tipo_evaluacion_id := 5, fecha := 0, valor := 0,
                                 descripcion := "Asistencia - Clase" }] },
          { ejemploSesion with estado := "cerrada", fecha_fin := some 2000 },
          rfl, ?_, ?_⟩
  · exact ((C4_cierre_reconciliacion 2000 ejemploAtt 1 _ _ ⟨5, "Asistencia"⟩ rfl rfl
      (by decide) (by decide)).2.1 ejemploRegistro (by decide)).1
  · exact (C4_cierre_reconciliacion 2000 ejemploAtt 1 _ _ ⟨5, "Asistencia"⟩ rfl rfl
      (by decide) (by decide)).2.2 0

/-! ### Session creation (claim C5) -/

/-- C5: `crear_sesion_asistencia` fails with the ConflictError exactly when an
active session for the same (teacher, course, subject) triple exists; a
successful creation appends one new active session for the triple; and the
single-active-session-per-triple invariant is preserved by every successful
creation. -/
theorem C5_conflicto_sesion_activa (st : AttState) (datos : SesionAsistenciaCreate)
    (docente_id nuevo_id : ℕ) :
    ((∃ s ∈ st.sesiones,
        esSesionActivaDe docente_id datos.curso_id datos.materia_id s = true) ↔
      crear_sesion_asistencia st datos docente_id nuevo_id = .error ()) ∧
    (∀ st' sesion, crear_sesion_asistencia st datos docente_id nuevo_id =
        .ok (st', sesion) →
      sesion.estado = "activa" ∧ st'.sesiones = st.sesiones ++ [sesion] ∧
      esSesionActivaDe docente_id datos.curso_id datos.materia_id sesion = true) ∧
    ((∀ d c m, st.sesiones.countP (esSesionActivaDe d c m) ≤ 1) →
      ∀ st' sesion, crear_sesion_asistencia st datos docente_id nuevo_id =
          .ok (st', sesion) →
      ∀ d c m, st'.sesiones.countP (esSesionActivaDe d c m) ≤ 1) := by
  rcases hf : st.sesiones.find?
      (esSesionActivaDe docente_id datos.curso_id datos.materia_id) with _ | s₁
  · have hnone : ∀ s ∈ st.sesiones,
        ¬ esSesionActivaDe docente_id datos.curso_id datos.materia_id s = true :=
      fun s hs => by simpa using List.find?_eq_none.mp hf s hs
    refine ⟨⟨fun ⟨s, hs, hp⟩ => absurd hp (hnone s hs), fun h => ?_⟩, ?_, ?_⟩
    · simp [crear_sesion_asistencia, hf] at h
    · intro st' sesion hok
      simp only [crear_sesion_asistencia, hf, Except.ok.injEq, Prod.mk.injEq] at hok
      obtain ⟨hst', hses⟩ := hok
      subst hst'
      subst hses
      exact ⟨rfl, rfl, by simp [esSesionActivaDe]⟩
    · intro hinv st' sesion hok d c m
      simp only [crear_sesion_asistencia, hf, Except.ok.injEq, Prod.mk.injEq] at hok
      obtain ⟨hst', hses⟩ := hok
      subst hst'
      subst hses
      show (st.sesiones ++ [_]).countP (esSesionActivaDe d c m) ≤ 1
      rw [List.countP_append]
      by_cases hnew : esSesionActivaDe d c m
          { id := nuevo_id, docente_id := docente_id, curso_id := datos.curso_id,
            materia_id := datos.materia_id, periodo_id := datos.periodo_id,
            titulo := datos.titulo, fecha_inicio := datos.fecha_inicio,
            fecha_fin := none, minutos_tolerancia := datos.minutos_tolerancia,
            latitud_docente := datos.latitud_docente,
            longitud_docente := datos.longitud_docente,
            radio_permitido_metros := datos.radio_permitido_metros,
            estado := "activa" } = true
      · have htriple : (docente_id = d ∧ datos.curso_id = c) ∧ datos.materia_id = m := by
          simpa [esSesionActivaDe] using hnew
        obtain ⟨⟨rfl, rfl⟩, rfl⟩ := htriple
        have h0 : st.sesiones.countP
            (esSesionActivaDe docente_id datos.curso_id datos.materia_id) = 0 :=
          List.countP_eq_zero.mpr fun s hs => by
            simpa using List.find?_eq_none.mp hf s hs
        simp [h0, hnew]
      · have hnew' : esSesionActivaDe d c m
            { id := nuevo_id, docente_id := docente_id, curso_id := datos.curso_id,
              materia_id := datos.materia_id, periodo_id := datos.periodo_id,
              titulo := datos.titulo, fecha_inicio := datos.fecha_inicio,
              fecha_fin := none, minutos_tolerancia := datos.minutos_tolerancia,
              latitud_docente := datos.latitud_docente,
              longitud_docente := datos.longitud_docente,
              radio_permitido_metros := datos.radio_permitido_metros,
              estado := "activa" } = false := by simpa using hnew
        simp only [List.countP_singleton, hnew', Bool.false_eq_true, if_false,
          Nat.add_zero]
        exact hinv d c m
  · refine ⟨⟨fun _ => by simp [crear_sesion_asistencia, hf], fun _ => ?_⟩, ?_, ?_⟩
    · exact ⟨s₁, List.mem_of_find?_eq_some hf, List.find?_some hf⟩
    · intro st' sesion hok
      simp [crear_sesion_asistencia, hf] at hok
    · intro _ st' sesion hok
      simp [crear_sesion_asistencia, hf] at hok

/-- A state whose only session for the triple is already closed. -/
def ejemploAttCerrado : AttState :=
  { sesiones := [{ ejemploSesion with estado := "cerrada" }]
    asistencias := []
    inscripciones := [⟨7, 1, 1⟩]
    tipos := []
    evaluaciones := [] }

def ejemploDatos : SesionAsistenciaCreate :=
  { curso_id := 1, materia_id := 1, periodo_id := 1, titulo := "Clase"
    fecha_inicio := 1000, minutos_tolerancia := 10
    latitud_docente := 0, longitud_docente := 0, radio_permitido_metros := 30 }

/-- Witness for C5: once the previously active session is closed, creating a
session for the same triple succeeds as an active session, and the
single-active-session invariant holds afterwards. -/
theorem C5_conflicto_sesion_activa_witness :
    ∃ st' sesion, crear_sesion_asistencia ejemploAttCerrado ejemploDatos 1 2 =
        .ok (st', sesion) ∧
      sesion.estado = "activa" ∧
      st'.sesiones.countP (esSesionActivaDe 1 1 1) ≤ 1 := by
  refine ⟨_, _, rfl, ?_, ?_⟩
  · exact ((C5_conflicto_sesion_activa ejemploAttCerrado ejemploDatos 1 2).2.1
      _ _ rfl).1
  · exact (C5_conflicto_sesion_activa ejemploAttCerrado ejemploDatos 1 2).2.2
      (fun d c m => le_trans (List.countP_le_length _) (by decide)) _ _ rfl 1 1 1

/-! ### Notification trigger (claims C8, C9) -/

lemma clave_nuevaNotificacion (s : NotifState) (ev : EvaluacionJoin) (q p : ℕ) :
    esNotificacionBaja p ev.id (nuevaNotificacion s ev q) = (q == p) := by
  simp [esNotificacionBaja, nuevaNotificacion]

lemma any_of_countP_pos {α : Type} (p : α → Bool) (l : List α)
    (h : 0 < l.countP p) : l.any p = true := by
  rw [List.any_eq_true]
  simpa using List.countP_pos_iff.mp h

lemma notificarPadre_estado (falla : ℕ → Bool) (ev : EvaluacionJoin)
    (acc : NotifState × List ℕ) (q : ℕ) :
    (notificarPadre falla ev acc q).1.evaluaciones = acc.1.evaluaciones ∧
    (notificarPadre falla ev acc q).1.padres = acc.1.padres := by
  unfold notificarPadre
  by_cases h1 : acc.1.notificaciones.any (esNotificacionBaja q ev.id) = true
  · simp [h1]
  · have h1' : acc.1.notificaciones.any (esNotificacionBaja q ev.id) = false := by
      simpa using h1
    by_cases h2 : falla q = true
    · simp [h1', h2]
    · have h2' : falla q = false := by simpa using h2
      simp [h1', h2']

lemma fold_notificar_estado (falla : ℕ → Bool) (ev : EvaluacionJoin) :
    ∀ (ps : List ℕ) (acc : NotifState × List ℕ),
      (ps.foldl (notificarPadre falla ev) acc).1.evaluaciones = acc.1.evaluaciones ∧
      (ps.foldl (notificarPadre falla ev) acc).1.padres = acc.1.padres := by
  intro ps
  induction ps with
  | nil => intro acc; exact ⟨rfl, rfl⟩
  | cons q qs ih =>
    intro acc
    rw [List.foldl_cons]
    refine ⟨?_, ?_⟩
    · rw [(ih _).1, (notificarPadre_estado falla ev acc q).1]
    · rw [(ih _).2, (notificarPadre_estado falla ev acc q).2]

lemma notificarPadre_countP (falla : ℕ → Bool) (ev : EvaluacionJoin)
    (acc : NotifState × List ℕ) (q p : ℕ) :
    (notificarPadre falla ev acc q).1.notificaciones.countP
        (esNotificacionBaja p ev.id) =
      acc.1.notificaciones.countP (esNotificacionBaja p ev.id) +
      (if q = p ∧ falla q = false ∧
          acc.1.notificaciones.any (esNotificacionBaja q ev.id) = false
       then 1 else 0) := by
  unfold notificarPadre
  by_cases h1 : acc.1.notificaciones.any (esNotificacionBaja q ev.id) = true
  · simp [h1]
  · have h1' : acc.1.notificaciones.any (esNotificacionBaja q ev.id) = false := by
      simpa using h1
    by_cases h2 : falla q = true
    · simp [h1', h2]
    · have h2' : falla q = false := by simpa using h2
      simp only [h1', Bool.false_eq_true, if_false, h2']
      rw [List.countP_append]
      by_cases hqp : q = p
      · subst hqp
        simp [List.countP_singleton, clave_nuevaNotificacion, h2', h1']
      · simp [List.countP_singleton, clave_nuevaNotificacion, hqp, h2', h1']

lemma fold_notificar_count_uno (falla : ℕ → Bool) (ev : EvaluacionJoin) :
    ∀ (ps : List ℕ) (acc : NotifState × List ℕ) (p : ℕ),
      acc.1.notificaciones.countP (esNotificacionBaja p ev.id) = 1 →
      (ps.foldl (notificarPadre falla ev) acc).1.notificaciones.countP
        (esNotificacionBaja p ev.id) = 1 := by
  intro ps
  induction ps with
  | nil => intro acc p h; exact h
  | cons q qs ih =>
    intro acc p h
    rw [List.foldl_cons]
    apply ih
    rw [notificarPadre_countP, h]
    by_cases hqp : q = p
    · subst hqp
      have hany : acc.1.notificaciones.any (esNotificacionBaja q ev.id) = true :=
        any_of_countP_pos _ _ (by omega)
      simp [hany]
    · simp [hqp]

lemma fold_notificar_establece (falla : ℕ → Bool) (ev : EvaluacionJoin) :
    ∀ (ps : List ℕ) (acc : NotifState × List ℕ) (p : ℕ),
      falla p = false → p ∈ ps →
      acc.1.notificaciones.countP (esNotificacionBaja p ev.id) = 0 →
      (ps.foldl (notificarPadre falla ev) acc).1.notificaciones.countP
        (esNotificacionBaja p ev.id) = 1 := by
  intro ps
  induction ps with
  | nil => intro _ p _ hp; simp at hp
  | cons q qs ih =>
    intro acc p hf hp h0
    rw [List.foldl_cons]
    by_cases hqp : q = p
    · subst hqp
      have hany : acc.1.notificaciones.any (esNotificacionBaja q ev.id) = false := by
        have h := List.countP_eq_zero.mp h0
        rw [List.any_eq_false]
        intro x hx
        simpa using h x hx
      apply fold_notificar_count_uno
      rw [notificarPadre_countP, h0]
      simp [hf, hany]
    · rcases List.mem_cons.mp hp with heq | hp'
      · exact absurd heq.symm hqp
      · apply ih _ p hf hp'
        rw [notificarPadre_countP, h0]
        simp [hqp]

lemma fold_notificar_preserva_otro (falla : ℕ → Bool) (ev : EvaluacionJoin) :
    ∀ (ps : List ℕ) (acc : NotifState × List ℕ) (p : ℕ), p ∉ ps →
      (ps.foldl (notificarPadre falla ev) acc).1.notificaciones.countP
          (esNotificacionBaja p ev.id) =
        acc.1.notificaciones.countP (esNotificacionBaja p ev.id) := by
  intro ps
  induction ps with
  | nil => intro acc p _; rfl
  | cons q qs ih =>
    intro acc p hp
    rw [List.foldl_cons]
    have hqp : ¬ q = p := fun h => hp (h ▸ List.mem_cons_self _ _)
    rw [ih _ p (fun h => hp (List.mem_cons_of_mem _ h)), notificarPadre_countP]
    simp [hqp]

lemma fold_notificar_noop (falla : ℕ → Bool) (ev : EvaluacionJoin) :
    ∀ (ps : List ℕ) (s : NotifState) (ids : List ℕ),
      (∀ p ∈ ps, falla p = true ∨
        s.notificaciones.any (esNotificacionBaja p ev.id) = true) →
      ps.foldl (notificarPadre falla ev) (s, ids) = (s, ids) := by
  intro ps
  induction ps with
  | nil => intro s ids _; rfl
  | cons q qs ih =>
    intro s ids h
    rw [List.foldl_cons]
    have hstep : notificarPadre falla ev (s, ids) q = (s, ids) := by
      rcases h q (List.mem_cons_self _ _) with hf | hany
      · by_cases hany : s.notificaciones.any (esNotificacionBaja q ev.id) = true
        · simp [notificarPadre, hany]
        · have hany' : s.notificaciones.any (esNotificacionBaja q ev.id) = false := by
            simpa using hany
          simp [notificarPadre, hany', hf]
      · simp [notificarPadre, hany]
    rw [hstep]
    exact ih s ids (fun p hp => h p (List.mem_cons_of_mem _ hp))

lemma fold_notificar_longitud (falla : ℕ → Bool) (ev : EvaluacionJoin) :
    ∀ (ps : List ℕ) (s : NotifState) (ids : List ℕ),
      (ps.foldl (notificarPadre falla ev) (s, ids)).1.notificaciones.length +
          ids.length =
        s.notificaciones.length +
          (ps.foldl (notificarPadre falla ev) (s, ids)).2.length := by
  intro ps
  induction ps with
  | nil => intro s ids; rfl
  | cons q qs ih =>
    intro s ids
    rw [List.foldl_cons]
    by_cases h1 : s.notificaciones.any (esNotificacionBaja q ev.id) = true
    · rw [show notificarPadre falla ev (s, ids) q = (s, ids) by
        simp [notificarPadre, h1]]
      exact ih s ids
    · have h1' : s.notificaciones.any (esNotificacionBaja q ev.id) = false := by
        simpa using h1
      by_cases h2 : falla q = true
      · rw [show notificarPadre falla ev (s, ids) q = (s, ids) by
          simp [notificarPadre, h1', h2]]
        exact ih s ids
      · have h2' : falla q = false := by simpa using h2
        rw [show notificarPadre falla ev (s, ids) q =
            ({ s with notificaciones := s.notificaciones ++ [nuevaNotificacion s ev q]
                      siguiente_id := s.siguiente_id + 1 },
             ids ++ [(nuevaNotificacion s ev q).id]) by
          simp [notificarPadre, h1', h2']]
        have h := ih { s with
            notificaciones := s.notificaciones ++ [nuevaNotificacion s ev q]
            siguiente_id := s.siguiente_id + 1 }
          (ids ++ [(nuevaNotificacion s ev q).id])
        simp only [List.length_append, List.length_singleton] at h ⊢
        omega

/-- C8: the low-grade trigger is a no-op returning the unchanged store and an
empty list when the entry's value is at or above the threshold; below the
threshold, starting from a store with no `calificacion_baja` notification for
the entry, one call creates exactly one notification per linked guardian (and
none for anyone else) when no creation fails, and a second call with the same
entry — under any failure oracle behaviour of the first call — creates
nothing and leaves the store unchanged. -/
theorem C8_trigger_idempotente (falla : ℕ → Bool) (st : NotifState)
    (evaluacion_id : ℕ) (umbral : ℚ) (ev : EvaluacionJoin)
    (hev : st.evaluaciones.find? (fun e => e.id == evaluacion_id) = some ev) :
    (umbral ≤ ev.valor →
      verificar_y_notificar_calificacion_baja falla st evaluacion_id umbral =
        (st, [])) ∧
    (ev.valor < umbral →
      (∀ p, st.notificaciones.countP (esNotificacionBaja p ev.id) = 0) →
      ((∀ p, falla p = false) →
        (∀ p ∈ padresDe st ev,
          (verificar_y_notificar_calificacion_baja falla st evaluacion_id
            umbral).1.notificaciones.countP (esNotificacionBaja p ev.id) = 1) ∧
        (∀ p, p ∉ padresDe st ev →
          (verificar_y_notificar_calificacion_baja falla st evaluacion_id
            umbral).1.notificaciones.countP (esNotificacionBaja p ev.id) = 0)) ∧
      verificar_y_notificar_calificacion_baja falla
          (verificar_y_notificar_calificacion_baja falla st evaluacion_id umbral).1
          evaluacion_id umbral =
        ((verificar_y_notificar_calificacion_baja falla st evaluacion_id umbral).1,
         [])) := by
  constructor
  · intro hge
    simp [verificar_y_notificar_calificacion_baja, hev, not_lt.mpr hge]
  · intro hlt hbefore
    have hnlt : ¬ umbral ≤ ev.valor := not_le.mpr hlt
    rcases hpad : (padresDe st ev).isEmpty with _ | _
    case true =>
      have hval : verificar_y_notificar_calificacion_baja falla st evaluacion_id
          umbral = (st, []) := by
        simp [verificar_y_notificar_calificacion_baja, hev, hnlt, hpad]
      rw [hval]
      refine ⟨fun _ => ⟨?_, ?_⟩, ?_⟩
      · intro p hp
        rw [List.isEmpty_iff.mp hpad] at hp
        simp at hp
      · intro p _
        exact hbefore p
      · simp [verificar_y_notificar_calificacion_baja, hev, hnlt, hpad]
    case false =>
      have hval : verificar_y_notificar_calificacion_baja falla st evaluacion_id
          umbral = (padresDe st ev).foldl (notificarPadre falla ev) (st, []) := by
        simp [verificar_y_notificar_calificacion_baja, hev, hnlt, hpad]
      refine ⟨fun hfalla => ⟨?_, ?_⟩, ?_⟩
      · intro p hp
        rw [hval]
        exact fold_notificar_establece falla ev (padresDe st ev) (st, []) p
          (hfalla p) hp (hbefore p)
      · intro p hp
        rw [hval]
        rw [fold_notificar_preserva_otro falla ev (padresDe st ev) (st, []) p hp]
        exact hbefore p
      · rw [hval]
        rcases hfold : (padresDe st ev).foldl (notificarPadre falla ev) (st, [])
          with ⟨st1, ids1⟩
        have hev1 : st1.evaluaciones.find? (fun e => e.id == evaluacion_id) =
            some ev := by
          have h := (fold_notificar_estado falla ev (padresDe st ev) (st, [])).1
          rw [hfold] at h
          simp only at h
          rw [h]
          exact hev
        have hpad1 : padresDe st1 ev = padresDe st ev := by
          have h := (fold_notificar_estado falla ev (padresDe st ev) (st, [])).2
          rw [hfold] at h
          simp only at h
          simp [padresDe, h]
        have hlive : ∀ p ∈ padresDe st ev, falla p = true ∨
            st1.notificaciones.any (esNotificacionBaja p ev.id) = true := by
          intro p hp
          by_cases hf : falla p = true
          · exact Or.inl hf
          · have hf' : falla p = false := by simpa using hf
            refine Or.inr (any_of_countP_pos _ _ ?_)
            have h := fold_notificar_establece falla ev (padresDe st ev) (st, []) p
              hf' hp (hbefore p)
            rw [hfold] at h
            simp only at h
            omega
        simp only [verificar_y_notificar_calificacion_baja, hev1, hnlt, if_false,
          hpad1, hpad]
        rw [fold_notificar_noop falla ev (padresDe st ev) st1 [] hlive]
        simp [hnlt]

/-- C9: the trigger always returns a (possibly empty) id list without raising:
a missing entry or a student without guardians yields the unchanged store and
the empty list; the number of notifications grows by exactly the number of
returned ids; and a creation failure for one guardian does not prevent any
non-failing guardian from getting exactly one notification. -/
theorem C9_trigger_total (falla : ℕ → Bool) (st : NotifState)
    (evaluacion_id : ℕ) (umbral : ℚ) :
    (st.evaluaciones.find? (fun e => e.id == evaluacion_id) = none →
      verificar_y_notificar_calificacion_baja falla st evaluacion_id umbral =
        (st, [])) ∧
    (∀ ev, st.evaluaciones.find? (fun e => e.id == evaluacion_id) = some ev →
      padresDe st ev = [] →
      verificar_y_notificar_calificacion_baja falla st evaluacion_id umbral =
        (st, [])) ∧
    ((verificar_y_notificar_calificacion_baja falla st evaluacion_id
        umbral).1.notificaciones.length =
      st.notificaciones.length +
        (verificar_y_notificar_calificacion_baja falla st evaluacion_id
          umbral).2.length) ∧
    (∀ ev, st.evaluaciones.find? (fun e => e.id == evaluacion_id) = some ev →
      ev.valor < umbral →
      (∀ p, st.notificaciones.countP (esNotificacionBaja p ev.id) = 0) →
      ∀ p ∈ padresDe st ev, falla p = false →
        (verificar_y_notificar_calificacion_baja falla st evaluacion_id
          umbral).1.notificaciones.countP (esNotificacionBaja p ev.id) = 1) := by
  refine ⟨?_, ?_, ?_, ?_⟩
  · intro hnone
    simp [verificar_y_notificar_calificacion_baja, hnone]
  · intro ev hev hpad
    simp [verificar_y_notificar_calificacion_baja, hev, hpad]
  · rcases hev : st.evaluaciones.find? (fun e => e.id == evaluacion_id) with _ | ev
    · simp [verificar_y_notificar_calificacion_baja, hev]
    · by_cases hge : umbral ≤ ev.valor
      · simp [verificar_y_notificar_calificacion_baja, hev, hge]
      · rcases hpad : (padresDe st ev).isEmpty with _ | _
        · have hval : verificar_y_notificar_calificacion_baja falla st evaluacion_id
              umbral = (padresDe st ev).foldl (notificarPadre falla ev) (st, []) := by
            simp [verificar_y_notificar_calificacion_baja, hev, hge, hpad]
          rw [hval]
          have h := fold_notificar_longitud falla ev (padresDe st ev) st []
          simpa using h
        · simp [verificar_y_notificar_calificacion_baja, hev, hge, hpad]
  · intro ev hev hlt hbefore p hp hf
    have hnlt : ¬ umbral ≤ ev.valor := not_le.mpr hlt
    have hpad : (padresDe st ev).isEmpty = false := by
      rcases h : (padresDe st ev).isEmpty with _ | _
      case false => rfl
      case true =>
        rw [List.isEmpty_iff.mp h] at hp
        simp at hp
    have hval : verificar_y_notificar_calificacion_baja falla st evaluacion_id
        umbral = (padresDe st ev).foldl (notificarPadre falla ev) (st, []) := by
      simp [verificar_y_notificar_calificacion_baja, hev, hnlt, hpad]
    rw [hval]
    exact fold_notificar_establece falla ev (padresDe st ev) (st, []) p hf hp
      (hbefore p)

/-- Notification-trigger example: evaluation 3 of student 7 with value 40
(below the default threshold 50), one linked guardian 21. -/
def ejemploNotif : NotifState :=
  { evaluaciones := [⟨3, 7, 40, "Examen parcial", "Ana", "Pérez", "Matemáticas"⟩]
    padres := [⟨21, 7⟩]
    notificaciones := []
    siguiente_id := 1 }

/-- Same entry but two guardians, 21 and 22. -/
def ejemploNotifDos : NotifState :=
  { evaluaciones := [⟨3, 7, 40, "Examen parcial", "Ana", "Pérez", "Matemáticas"⟩]
    padres := [⟨21, 7⟩, ⟨22, 7⟩]
    notificaciones := []
    siguiente_id := 1 }

/-- Witness for C8: the value-40 entry against threshold 50 creates exactly
one notification for guardian 21, and the second identical call creates
nothing and leaves the store unchanged. -/
theorem C8_trigger_idempotente_witness :
    ((verificar_y_notificar_calificacion_baja (fun _ => false) ejemploNotif 3
        50).1.notificaciones.countP (esNotificacionBaja 21 3) = 1) ∧
    verificar_y_notificar_calificacion_baja (fun _ => false)
        (verificar_y_notificar_calificacion_baja (fun _ => false) ejemploNotif 3
          50).1 3 50 =
      ((verificar_y_notificar_calificacion_baja (fun _ => false) ejemploNotif 3
        50).1, []) := by
  have h := (C8_trigger_idempotente (fun _ => false) ejemploNotif 3 50
    ⟨3, 7, 40, "Examen parcial", "Ana", "Pérez", "Matemáticas"⟩ rfl).2
    (by decide) (fun p => rfl)
  exact ⟨(h.1 (fun p => rfl)).1 21 (by decide), h.2⟩

/-- Witness for C9: an unknown evaluation id returns the untouched store with
no ids, and with guardian 21's creation failing, guardian 22 still gets
exactly one notification. -/
theorem C9_trigger_total_witness :
    verificar_y_notificar_calificacion_baja (fun _ => false) ejemploNotif 99 50 =
      (ejemploNotif, []) ∧
    (verificar_y_notificar_calificacion_baja (fun p => p == 21) ejemploNotifDos 3
      50).1.notificaciones.countP (esNotificacionBaja 22 3) = 1 := by
  constructor
  · exact (C9_trigger_total (fun _ => false) ejemploNotif 99 50).1 rfl
  · exact (C9_trigger_total (fun p => p == 21) ejemploNotifDos 3 50).2.2.2
      ⟨3, 7, 40, "Examen parcial", "Ana", "Pérez", "Matemáticas"⟩ rfl (by decide)
      (fun p => rfl) 22 (by decide) rfl

end AulaInteligente
